import Mathlib

/-!
Verification development for the TTMonly multi-stage counseling server.

The repository is a FastAPI orchestrator (`src/main.py`) dispatching to five
stage handlers (`src/agents/{empathy,mi,cbt1,cbt2,cbt3}_agent.py`).  Each
handler is an async generator that streams reply fragments and ends with a
sentinel line followed by a JSON trailer describing the next state.

This file is a shallow embedding of that code:
* each `stream_*_reply` generator becomes a pure function from the agent's
  own pydantic state plus the generation-port outcome (`Gen`) to a
  `HandlerOut` record holding the message list sent to the model, whether
  the model was invoked at all, and the emitted trailer;
* the llama-cpp generation call is modelled by the `Gen` parameter
  (`Gen.ok text` = the concatenation of all streamed tokens, `Gen.err` =
  model load or inference raised an exception);
* the difflib near-duplicate check of cbt2/cbt3 is modelled by a boolean
  oracle parameter `sim a b` standing for
  `difflib.SequenceMatcher(None, a[:30], b[:30]).ratio() > 0.85`;
* the wire codec (sentinel framing, the orchestrator's regex extraction
  `re.search(r'---END_STAGE---\n(\x7b.*\x7d)', full_text, re.DOTALL)`, and
  `json.loads` / `json.dumps(..., ensure_ascii=False)`) is modelled at the
  character-list level further below.
-/

/-- Outcome of driving the Generation Port (llama-cpp) for one turn:
`ok text` is the concatenation of all streamed delta tokens, `err` means the
model load or the inference call raised an exception. -/
inductive Gen where
  | ok (text : String)
  | err
deriving DecidableEq, Repr

/-- One chat message handed to `llm.create_chat_completion`. -/
structure Message where
  role : String
  content : String
deriving DecidableEq, Repr

/-- The JSON trailer a handler emits after the `---END_STAGE---` sentinel.
Fields that some handlers omit from their JSON object are `Option`s
(`none` = the key is absent from the emitted object); in particular the mi
handler emits no `turn` key at all. -/
structure Trailer where
  next_stage : String
  turn : Option Int
  response : String
  history : List String
  question : Option String
  intro_shown : Option Bool
  awaiting_preparation_decision : Option Bool
deriving DecidableEq, Repr

/-- Everything observable about one handler invocation: whether the
Generation Port was driven, the message list built for it (empty on paths
that never build one), and the emitted trailer. -/
structure HandlerOut where
  usedModel : Bool
  messages : List Message
  trailer : Trailer
deriving DecidableEq, Repr

/-! ### Agent states (one per agent file, mirroring each file's pydantic `AgentState`) -/

/-- `AgentState` of `src/agents/mi_agent.py` (no `stage`, no `turn` field). -/
structure MiAgentState where
  question : String
  response : String
  history : List String
  intro_shown : Bool
deriving DecidableEq, Repr

/-- `AgentState` of `src/agents/cbt1_agent.py`. -/
structure Cbt1AgentState where
  stage : String
  question : String
  response : String
  history : List String
  turn : Int
  intro_shown : Bool
  pending_response : Option String
deriving DecidableEq, Repr

/-- `AgentState` of `src/agents/cbt2_agent.py`. -/
structure Cbt2AgentState where
  question : String
  response : String
  history : List String
  turn : Int
  intro_shown : Bool
deriving DecidableEq, Repr

/-- `AgentState` of `src/agents/cbt3_agent.py`. -/
structure Cbt3AgentState where
  stage : String
  question : String
  response : String
  history : List String
  turn : Int
  intro_shown : Bool
  awaiting_preparation_decision : Bool
  pending_response : Option String
deriving DecidableEq, Repr

/-- `AgentState` of `src/main.py` (the orchestrator's request model). -/
structure MainAgentState where
  stage : String
  question : String
  response : String
  history : List String
  turn : Int
deriving DecidableEq, Repr

/-! ### Fixed strings (copied verbatim from the source; ' is the ASCII
apostrophe appearing inside the Korean prompt examples) -/

def empathy_system_prompt : String :=
  "당신은 따뜻하고 진심 어린 공감 상담자입니다.\n사용자는 이별, 상실, 고통, 외로움 같은 정서적인 문제를 이야기할 수 있으며,\n당신은 항상 존댓말로 부드럽고 진심 어린 말투로 응답해야 합니다.\n1~2문장으로 너무 길지 않게 말해주세요. 지나친 위로나 조언보다는, 감정에 귀 기울이는 반응이 중심이어야 합니다.\n절대 명령하거나 단정 짓지 말고, 사용자의 감정을 인정하고 함께 있어주는 따뜻한 친구처럼 이야기해주세요.\n모든 응답은 반드시 한국어로 출력하세요."

def empathy_fallback : String :=
  "지금 어떤 마음이신지 조금 더 이야기해 주실 수 있으실까요?"

def empathy_default_reply : String :=
  "괜찮아요. 지금 이 순간 어떤 마음이신지 천천히 들려주세요."

def empathy_error_fallback : String :=
  "죄송합니다. 잠시 오류가 있었어요. 다시 말씀해 주실 수 있을까요?"

def mi_system_prompt : String :=
  "당신은 공감적이고 지지적인 상담자입니다.\n- 감정을 판단 없이 수용하고, 변화 동기를 탐색하세요.\n- 위로나 충고보다는 공감과 질문으로 대화하세요.\n- 말투는 존댓말, 응답은 1~2문장으로 짧고 다양하게.\n- 예: '그때 어떤 감정이 가장 크게 느껴졌나요?', '지금 이 상황에서 가장 힘든 부분은 무엇인가요?'\n- 예: '그렇다면 지금부터 어떤 행동을 해볼 수 있을까요?', '작은 실천부터 함께 생각해볼까요?'"

def mi_intro : String :=
  "우선 지금 이 자리에 와주셔서 감사합니다. 어떤 이야기를 나누고 싶으신가요?"

def mi_fallback : String :=
  "조금 더 구체적으로 말씀해주실 수 있을까요?"

def mi_default_reply : String :=
  "괜찮아요. 마음을 천천히 들려주셔도 괜찮습니다."

def mi_error_fallback : String :=
  "죄송합니다. 잠시 문제가 발생했어요. 다시 한 번 말씀해 주시겠어요?"

def cbt1_system_prompt : String :=
  "너는 따뜻하고 이성적인 소크라테스 상담자야. 사용자의 자동사고를 탐색해야 해.\n- 매번 새로운 시각으로 질문을 던져야 해.\n- 질문은 1~2문장, 존댓말로 마무리해.\n- 감정, 근거, 결과, 대안사고, 생각의 패턴을 다양하게 유도해.\n- 예시: '그 생각이 들었을 때 어떤 감정이 가장 컸나요?', '그 생각이 사실이라고 느낀 이유는 무엇이었나요?', '비슷한 상황에서 늘 이런 생각이 드시나요?', '그 생각을 계속 믿으면 어떤 결과가 생길까요?', '다른 시각에서 보면 어떤 해석이 가능할까요?', '친한 친구가 같은 말을 했다면 뭐라고 답했을 것 같나요?'"

def cbt1_intro : String :=
  "지금부터 자동적으로 떠오르는 생각을 함께 살펴볼게요. 편하게 떠오른 생각을 말씀해 주세요."

def cbt1_fallback : String :=
  "떠오른 생각이나 감정이 있다면 편하게 이야기해 주세요."

def cbt1_default_reply : String :=
  "네, 그 생각을 더 자세히 들여다볼 수 있을까요?"

def cbt1_transition_note : String :=
  "\n\n👍 잘하셨어요. 다음 단계에서는 떠오른 생각을 재구성해보는 연습을 해볼게요."

def cbt1_error_fallback : String :=
  "죄송해요. 다시 말씀해 주시겠어요?"

def cbt2_system_prompt : String :=
  "너는 인지 재구조화를 도와주는 전문 CBT 상담자야.\n- 반드시 한 번에 하나의 질문만 하세요. 여러 질문을 나열하지 마세요.\n- 자동사고에 도전하고 왜곡된 사고를 재구성할 수 있도록 다양한 관점의 질문을 해.\n- 주제를 돌아가며 질문해: 감정, 사실 여부, 대안 해석, 가치 판단, 신념 검토, 타인의 관점, 장기적 영향, 반복된 패턴, 긍정적 가능성 등\n- 질문은 존댓말로 짧고 따뜻하게 마무리해 주세요.\n- 같은 구조의 질문은 반복하지 마세요.\n- 예시:\n  - '그 생각은 어떤 근거에서 비롯된 걸까요?'\n  - '혹시 이전에도 비슷한 상황을 경험하신 적 있으신가요?'\n  - '그 생각이 지속된다면 어떤 장기적인 영향이 생길 수 있을까요?'\n  - '다른 시각에서 보면 이 상황을 어떻게 볼 수 있을까요?'\n  - '이 생각이 지금의 감정에 어떤 영향을 주고 있을까요?'"

def cbt2_intro : String :=
  "이제부터는 떠오른 생각을 다양한 시각에서 다시 바라보는 연습을 해볼 거예요. 천천히 생각을 나눠 주세요."

def cbt2_fallback : String :=
  "조금 더 구체적으로 이야기해주실 수 있을까요?"

def cbt2_default_reply : String :=
  "괜찮습니다. 천천히 생각을 정리해 말씀해주셔도 돼요."

def cbt2_variation_note : String :=
  " 이번엔 조금 다른 방향에서 생각해볼 수 있도록 질문드렸어요."

def cbt2_transition_note : String :=
  "\n\n🧠 이제 생각을 재구성하는 CBT3 단계로 넘어갈 준비가 되었어요."

def cbt2_error_fallback : String :=
  "죄송해요. 다시 한 번 이야기해주실 수 있을까요?"

def cbt3_system_prompt : String :=
  "너는 따뜻하고 논리적인 소크라테스 상담자입니다.\n- 사용자가 말한 감정, 상황, 목표를 바탕으로 실천 가능한 행동 계획을 세우도록 유도하세요.\n- 반드시 한 번에 **하나의 질문만** 하세요. 여러 질문을 한 문장에 나열하지 마세요.\n- 질문은 존댓말로 마무리하며, 단정하지 않고 열린 질문으로 표현하세요.\n- 실천 전략, 방해 요소 대처, 자기 피드백, 환경 설정, 감정 변화 인식 등 다양한 관점에서 질문하세요.\n- 같은 구조의 질문 반복은 피하고, 매번 새로운 시각으로 질문을 던지세요.\n- 예: '그 변화를 위해 가장 먼저 시도해볼 수 있는 행동은 무엇일까요?'"

def cbt3_intro : String :=
  "📘 이제 우리는 실천 계획을 세워볼 거예요. 지금까지 정리된 생각을 바탕으로, 앞으로 어떤 행동을 시도해볼 수 있을지 함께 고민해봐요."

def cbt3_fallback : String :=
  "떠오르는 아이디어나 시도해보고 싶은 변화가 있다면 말씀해 주세요."

def cbt3_default_reply : String :=
  "괜찮아요. 지금 떠오르는 작은 아이디어라도 함께 나눠볼 수 있어요."

def cbt3_variation_note : String :=
  " 이번에는 조금 다른 각도로 질문드렸어요."

def cbt3_transition_note : String :=
  "\n\n🎯 계획을 잘 세워주셨어요. 이제 오늘 대화를 마무리할게요."

def cbt3_error_yield : String :=
  "죄송해요. 다시 한 번 이야기해주시겠어요?"

def cbt3_error_response : String :=
  "⚠️ 예상치 못한 오류가 발생해 대화를 종료합니다."

/-! ### History-window reconstruction

The handlers rebuild role-tagged messages from `history` in three distinct
ways; the loops below are translated index-for-index from the sources. -/

/-- Alternating reconstruction used by mi (from `max(0, len-10)`) and cbt3
(from 0): `for i in range(start, len, 2): user h[i]; if i+1 < len:
assistant h[i+1]`, applied here to the already-dropped sublist.  A trailing
unpaired entry becomes a lone user message. -/
def altMsgs : List String → List Message
  | [] => []
  | [u] => [{ role := "user", content := u }]
  | u :: a :: rest =>
      { role := "user", content := u } :: { role := "assistant", content := a } :: altMsgs rest

/-- Pair-only reconstruction used by cbt1: `for i in range(0, len, 2): if
i+1 < len: user h[i]; assistant h[i+1]` — a trailing unpaired entry is
skipped entirely. -/
def pairMsgs : List String → List Message
  | u :: a :: rest =>
      { role := "user", content := u } :: { role := "assistant", content := a } :: pairMsgs rest
  | _ => []

/-- `history[-10:]` (and `max(0, len(history) - 10)` as a drop count):
Python slicing from the 10th-from-last entry. -/
def lastTen (h : List String) : List String :=
  h.drop (h.length - 10)

/-- The cbt1 idempotent-append guard
`len(h) >= 2 and h[-2] == user_input and h[-1] == reply`. -/
def lastPairIs (h : List String) (u r : String) : Bool :=
  match h.reverse with
  | r1 :: u1 :: _ => u1 = u && r1 = r
  | _ => false

/-- ASCII whitespace as `str.strip()` removes it (space, tab, newline,
carriage return, vertical tab, form feed). -/
def isStripWs (c : Char) : Bool :=
  c = ' ' || c = '\t' || c = '\n' || c = '\r' || c = '\x0b' || c = '\x0c'

/-- Python `str.strip()` on the character list (kernel-computable, unlike
`String.trim`). -/
def pstrip (s : String) : String :=
  String.mk (((s.data.dropWhile isStripWs).reverse.dropWhile isStripWs).reverse)

/-! ### The five stage handlers -/

/-- `stream_empathy_reply(user_input, model_path, turn)` from
`src/agents/empathy_agent.py`.  The orchestrator passes only
`state.question.strip()` and `state.turn` to it — no history. -/
def stream_empathy_reply (user_input0 : String) (turn : Int) (g : Gen) : HandlerOut :=
  let user_input := pstrip user_input0
  if user_input.length < 3 then
    { usedModel := false, messages := [],
      trailer := { next_stage := "empathy", turn := some turn, response := empathy_fallback,
                   history := [user_input, empathy_fallback], question := none,
                   intro_shown := some true, awaiting_preparation_decision := none } }
  else
    match g with
    | .err =>
        { usedModel := true, messages := [],
          trailer := { next_stage := "empathy", turn := some turn, response := empathy_error_fallback,
                       history := [user_input, empathy_error_fallback], question := none,
                       intro_shown := some true, awaiting_preparation_decision := none } }
    | .ok text =>
        let messages := [{ role := "system", content := empathy_system_prompt },
                         { role := "user", content := user_input }]
        let stripped := pstrip text
        let reply := if stripped = "" || stripped.length < 2 then empathy_default_reply else stripped
        { usedModel := true, messages := messages,
          trailer := { next_stage := if turn ≥ 4 then "mi" else "empathy",
                       turn := some (if turn ≥ 4 then 0 else turn + 1),
                       response := reply,
                       history := [user_input, reply], question := none,
                       intro_shown := some true, awaiting_preparation_decision := none } }

/-- `stream_mi_reply(state, model_path)` from `src/agents/mi_agent.py`.
Note: none of its four trailers carries a `turn` key, and the stage switch
is driven by `len(state.history) // 2`, not by a turn counter. -/
def stream_mi_reply (state : MiAgentState) (g : Gen) : HandlerOut :=
  let user_input := pstrip state.question
  if state.intro_shown = false then
    { usedModel := false, messages := [],
      trailer := { next_stage := "mi", turn := none, response := mi_intro,
                   history := state.history ++ [mi_intro], question := none,
                   intro_shown := some true, awaiting_preparation_decision := none } }
  else if user_input = "" || user_input.length < 2 then
    { usedModel := false, messages := [],
      trailer := { next_stage := "mi", turn := none, response := mi_fallback,
                   history := state.history ++ [user_input, mi_fallback], question := none,
                   intro_shown := some true, awaiting_preparation_decision := none } }
  else
    match g with
    | .err =>
        { usedModel := true, messages := [],
          trailer := { next_stage := "mi", turn := none, response := mi_error_fallback,
                       history := state.history ++ [user_input], question := none,
                       intro_shown := some true, awaiting_preparation_decision := none } }
    | .ok text =>
        let messages := { role := "system", content := mi_system_prompt }
          :: altMsgs (lastTen state.history) ++ [{ role := "user", content := user_input }]
        let stripped := pstrip text
        let reply := if stripped = "" then mi_default_reply else stripped
        let turn_count := state.history.length / 2
        let next_stage := if turn_count + 1 ≥ 5 then "cbt1" else "mi"
        { usedModel := true, messages := messages,
          trailer := { next_stage := next_stage, turn := none, response := reply,
                       history := state.history ++ [user_input, reply], question := none,
                       intro_shown := some true, awaiting_preparation_decision := none } }

/-- `stream_cbt1_reply(state, model_path)` from `src/agents/cbt1_agent.py`. -/
def stream_cbt1_reply (state : Cbt1AgentState) (g : Gen) : HandlerOut :=
  let user_input := pstrip state.question
  let history := state.history
  if state.intro_shown = false then
    { usedModel := false, messages := [],
      trailer := { next_stage := "cbt1", turn := some 0, response := cbt1_intro,
                   history := history ++ [cbt1_intro], question := some "",
                   intro_shown := some true, awaiting_preparation_decision := none } }
  else if user_input = "" then
    { usedModel := false, messages := [],
      trailer := { next_stage := "cbt1", turn := some state.turn, response := cbt1_fallback,
                   history := history, question := some "",
                   intro_shown := some true, awaiting_preparation_decision := none } }
  else
    match g with
    | .err =>
        { usedModel := true, messages := [],
          trailer := { next_stage := "cbt1", turn := some state.turn, response := cbt1_error_fallback,
                       history := history, question := some "",
                       intro_shown := some true, awaiting_preparation_decision := none } }
    | .ok text =>
        let messages := { role := "system", content := cbt1_system_prompt }
          :: pairMsgs history ++ [{ role := "user", content := user_input }]
        let stripped := pstrip text
        let reply0 := if stripped = "" then cbt1_default_reply else stripped
        let next_turn := state.turn + 1
        let next_stage := if next_turn ≥ 5 then "cbt2" else "cbt1"
        let reply := if next_stage = "cbt2" then reply0 ++ cbt1_transition_note else reply0
        let updated_history :=
          if lastPairIs history user_input reply then history
          else history ++ [user_input, reply]
        { usedModel := true, messages := messages,
          trailer := { next_stage := next_stage,
                       turn := some (if next_stage = "cbt2" then 0 else next_turn),
                       response := reply, history := updated_history, question := some "",
                       intro_shown := some true, awaiting_preparation_decision := none } }

/-- `stream_cbt2_reply(state, model_path)` from `src/agents/cbt2_agent.py`.
`sim a b` models `difflib.SequenceMatcher(None, a[:30], b[:30]).ratio() > 0.85`. -/
def stream_cbt2_reply (state : Cbt2AgentState) (g : Gen) (sim : String → String → Bool) :
    HandlerOut :=
  let user_input := pstrip state.question
  if state.intro_shown = false then
    { usedModel := false, messages := [],
      trailer := { next_stage := "cbt2", turn := some 0, response := cbt2_intro,
                   history := state.history ++ [cbt2_intro], question := none,
                   intro_shown := some true, awaiting_preparation_decision := none } }
  else if user_input = "" then
    { usedModel := false, messages := [],
      trailer := { next_stage := "cbt2", turn := some (state.turn + 1), response := cbt2_fallback,
                   history := state.history ++ [user_input, cbt2_fallback], question := none,
                   intro_shown := some true, awaiting_preparation_decision := none } }
  else
    match g with
    | .err =>
        { usedModel := true, messages := [],
          trailer := { next_stage := "cbt2", turn := some (state.turn + 1),
                       response := cbt2_error_fallback,
                       history := state.history ++ [user_input], question := none,
                       intro_shown := some true, awaiting_preparation_decision := none } }
    | .ok text =>
        let messages := { role := "system", content := cbt2_system_prompt }
          :: altMsgs (lastTen state.history) ++ [{ role := "user", content := user_input }]
        let stripped := pstrip text
        let reply0 := if stripped = "" then cbt2_default_reply else stripped
        let reply1 := if (lastTen state.history).any (fun past => sim reply0 past)
          then reply0 ++ cbt2_variation_note else reply0
        let next_turn := state.turn + 1
        let next_stage := if next_turn ≥ 5 then "cbt3" else "cbt2"
        let reply := if next_stage = "cbt3" then reply1 ++ cbt2_transition_note else reply1
        { usedModel := true, messages := messages,
          trailer := { next_stage := next_stage,
                       turn := some (if next_stage = "cbt3" then 0 else next_turn),
                       response := reply,
                       history := state.history ++ [user_input, reply], question := none,
                       intro_shown := some true, awaiting_preparation_decision := none } }

/-- `stream_cbt3_reply(state, model_path)` from `src/agents/cbt3_agent.py`.
Its error trailer transitions to `end` with turn 0. -/
def stream_cbt3_reply (state : Cbt3AgentState) (g : Gen) (sim : String → String → Bool) :
    HandlerOut :=
  let user_input := pstrip state.question
  if state.intro_shown = false then
    { usedModel := false, messages := [],
      trailer := { next_stage := "cbt3", turn := some 0, response := cbt3_intro,
                   history := state.history ++ [cbt3_intro], question := none,
                   intro_shown := some true, awaiting_preparation_decision := some false } }
  else if user_input = "" then
    { usedModel := false, messages := [],
      trailer := { next_stage := "cbt3", turn := some state.turn, response := cbt3_fallback,
                   history := state.history, question := none,
                   intro_shown := some true, awaiting_preparation_decision := some false } }
  else
    match g with
    | .err =>
        { usedModel := true, messages := [],
          trailer := { next_stage := "end", turn := some 0, response := cbt3_error_response,
                       history := state.history, question := none,
                       intro_shown := some true, awaiting_preparation_decision := some false } }
    | .ok text =>
        let messages := { role := "system", content := cbt3_system_prompt }
          :: altMsgs state.history ++ [{ role := "user", content := user_input }]
        let stripped := pstrip text
        let reply0 := if stripped = "" then cbt3_default_reply else stripped
        let reply1 := if (lastTen state.history).any (fun past => sim reply0 past)
          then reply0 ++ cbt3_variation_note else reply0
        let next_turn := state.turn + 1
        let is_ending := next_turn ≥ 5
        let next_stage := if is_ending then "end" else "cbt3"
        let next_turn2 : Int := if is_ending then 0 else next_turn
        let reply := if is_ending then reply1 ++ cbt3_transition_note else reply1
        { usedModel := true, messages := messages,
          trailer := { next_stage := next_stage, turn := some next_turn2, response := reply,
                       history := state.history ++ [user_input, reply], question := none,
                       intro_shown := some true, awaiting_preparation_decision := some false } }

/-! ### Wire codec: JSON model

The handlers emit `json.dumps(dict, ensure_ascii=False)` and the
orchestrator re-parses with `json.loads`.  `Jv` is the JSON value model
(integers only — every number this system writes is an int), `dumpsJ` the
serializer with CPython's default separators and escaping rules, and
`loadsJ` a strict parser mirroring `json.loads` on the JSON subset this
system exchanges (objects, arrays, strings with escapes, integers,
booleans, null; whole-input consumption; raw control characters rejected
inside strings). -/

inductive Jv where
  | null
  | bool (b : Bool)
  | num (n : Int)
  | str (s : String)
  | arr (elems : List Jv)
  | obj (members : List (String × Jv))
deriving Repr

def hexDigitChar (n : Nat) : Char :=
  if n < 10 then Char.ofNat (48 + n) else Char.ofNat (97 + (n - 10))

/-- CPython `json` escaping of a single character (`ensure_ascii=False`):
quote, backslash and the named control escapes get two-character escapes,
other control characters a `\u00XX` escape, everything else is passed raw. -/
def escapeChar (c : Char) : List Char :=
  if c = '"' then ['\\', '"']
  else if c = '\\' then ['\\', '\\']
  else if c = '\n' then ['\\', 'n']
  else if c = '\r' then ['\\', 'r']
  else if c = '\t' then ['\\', 't']
  else if c.toNat = 8 then ['\\', 'b']
  else if c.toNat = 12 then ['\\', 'f']
  else if c.toNat < 32 then
    ['\\', 'u', '0', '0', hexDigitChar (c.toNat / 16), hexDigitChar (c.toNat % 16)]
  else [c]

def quoteStr (s : String) : List Char :=
  '"' :: (s.data.map escapeChar).flatten ++ ['"']

/-- Decimal digits of a natural number (fuel-based; `natDigits n` with fuel
`n+1` always suffices). -/
def natDigitsAux : Nat → Nat → List Char
  | 0, _ => []
  | fuel + 1, n =>
      if n < 10 then [Char.ofNat (48 + n)]
      else natDigitsAux fuel (n / 10) ++ [Char.ofNat (48 + n % 10)]

def natDigits (n : Nat) : List Char := natDigitsAux (n + 1) n

/-- CPython `repr` of an int as `json.dumps` writes it. -/
def intDigits (n : Int) : List Char :=
  if n < 0 then '-' :: natDigits (-n).toNat else natDigits n.toNat

mutual

def dumpsJ : Jv → List Char
  | .null => "null".data
  | .bool true => "true".data
  | .bool false => "false".data
  | .num n => intDigits n
  | .str s => quoteStr s
  | .arr xs => '[' :: dumpsArr xs ++ [']']
  | .obj ms => '{' :: dumpsObj ms ++ ['}']

def dumpsArr : List Jv → List Char
  | [] => []
  | [x] => dumpsJ x
  | x :: y :: rest => dumpsJ x ++ ", ".data ++ dumpsArr (y :: rest)

def dumpsObj : List (String × Jv) → List Char
  | [] => []
  | [(k, v)] => quoteStr k ++ ": ".data ++ dumpsJ v
  | (k, v) :: m :: rest => quoteStr k ++ ": ".data ++ dumpsJ v ++ ", ".data ++ dumpsObj (m :: rest)

end

def isWsChar (c : Char) : Bool :=
  c = ' ' || c = '\t' || c = '\n' || c = '\r'

def skipWs (l : List Char) : List Char :=
  l.dropWhile isWsChar

def hexVal (c : Char) : Option Nat :=
  if 48 ≤ c.toNat ∧ c.toNat ≤ 57 then some (c.toNat - 48)
  else if 97 ≤ c.toNat ∧ c.toNat ≤ 102 then some (c.toNat - 87)
  else if 65 ≤ c.toNat ∧ c.toNat ≤ 70 then some (c.toNat - 55)
  else none

/-- The body of a JSON string literal (after the opening quote), with the
escape sequences `json.loads` accepts; raw control characters are rejected
(strict mode). -/
def parseStrBody (fuel : Nat) (l : List Char) (acc : List Char) : Option (String × List Char) :=
  match fuel with
  | 0 => none
  | fuel + 1 =>
    match l with
    | [] => none
    | c :: rest =>
      if c = '"' then some (String.mk acc.reverse, rest)
      else if c = '\\' then
        match rest with
        | [] => none
        | e :: rest =>
          if e = '"' then parseStrBody fuel rest ('"' :: acc)
          else if e = '\\' then parseStrBody fuel rest ('\\' :: acc)
          else if e = '/' then parseStrBody fuel rest ('/' :: acc)
          else if e = 'n' then parseStrBody fuel rest ('\n' :: acc)
          else if e = 't' then parseStrBody fuel rest ('\t' :: acc)
          else if e = 'r' then parseStrBody fuel rest ('\r' :: acc)
          else if e = 'b' then parseStrBody fuel rest (Char.ofNat 8 :: acc)
          else if e = 'f' then parseStrBody fuel rest (Char.ofNat 12 :: acc)
          else if e = 'u' then
            match rest with
            | h1 :: h2 :: h3 :: h4 :: rest2 =>
              match hexVal h1, hexVal h2, hexVal h3, hexVal h4 with
              | some a, some b, some c, some d =>
                  parseStrBody fuel rest2 (Char.ofNat (((a * 16 + b) * 16 + c) * 16 + d) :: acc)
              | _, _, _, _ => none
            | _ => none
          else none
      else if c.toNat < 32 then none
      else parseStrBody fuel rest (c :: acc)

def digitsToNat (ds : List Char) : Nat :=
  ds.foldl (fun a c => a * 10 + (c.toNat - 48)) 0

/-- An unsigned JSON integer: one or more digits, no redundant leading
zero, and no fraction/exponent (this system never writes floats). -/
def parseUnsigned (l : List Char) : Option (Nat × List Char) :=
  let p := l.span Char.isDigit
  match p.1 with
  | [] => none
  | d :: ds =>
    if d = '0' ∧ ds ≠ [] then none
    else
      match p.2 with
      | c :: _ => if c = '.' ∨ c = 'e' ∨ c = 'E' then none else some (digitsToNat (d :: ds), p.2)
      | [] => some (digitsToNat (d :: ds), p.2)

mutual

def parseJ : Nat → List Char → Option (Jv × List Char)
  | 0, _ => none
  | fuel + 1, l =>
    match skipWs l with
    | [] => none
    | c :: rest =>
      if c = '{' then
        let r2 := skipWs rest
        if r2.head? = some '}' then some (.obj [], r2.tail)
        else parseMembers fuel r2 []
      else if c = '[' then
        let r2 := skipWs rest
        if r2.head? = some ']' then some (.arr [], r2.tail)
        else parseElems fuel r2 []
      else if c = '"' then
        match parseStrBody (rest.length + 1) rest [] with
        | some (s, rest2) => some (.str s, rest2)
        | none => none
      else if c = 't' then
        match rest with
        | 'r' :: 'u' :: 'e' :: rest2 => some (.bool true, rest2)
        | _ => none
      else if c = 'f' then
        match rest with
        | 'a' :: 'l' :: 's' :: 'e' :: rest2 => some (.bool false, rest2)
        | _ => none
      else if c = 'n' then
        match rest with
        | 'u' :: 'l' :: 'l' :: rest2 => some (.null, rest2)
        | _ => none
      else if c = '-' then
        match parseUnsigned rest with
        | some (n, rest2) => some (.num (-(n : Int)), rest2)
        | none => none
      else
        match parseUnsigned (c :: rest) with
        | some (n, rest2) => some (.num (n : Int), rest2)
        | none => none

def parseMembers : Nat → List Char → List (String × Jv) → Option (Jv × List Char)
  | 0, _, _ => none
  | fuel + 1, l, acc =>
    match skipWs l with
    | [] => none
    | c :: rest =>
      if c = '"' then
        match parseStrBody (rest.length + 1) rest [] with
        | some (k, rest2) =>
          match skipWs rest2 with
          | [] => none
          | c2 :: rest3 =>
            if c2 = ':' then
              match parseJ fuel rest3 with
              | some (v, rest4) =>
                match skipWs rest4 with
                | [] => none
                | c3 :: rest5 =>
                  if c3 = ',' then parseMembers fuel rest5 (acc ++ [(k, v)])
                  else if c3 = '}' then some (.obj (acc ++ [(k, v)]), rest5)
                  else none
              | none => none
            else none
        | none => none
      else none

def parseElems : Nat → List Char → List Jv → Option (Jv × List Char)
  | 0, _, _ => none
  | fuel + 1, l, acc =>
    match parseJ fuel l with
    | some (v, rest) =>
      match skipWs rest with
      | [] => none
      | c :: rest2 =>
        if c = ',' then parseElems fuel rest2 (acc ++ [v])
        else if c = ']' then some (.arr (acc ++ [v]), rest2)
        else none
    | none => none

end

/-- The character class that may legally follow a serialized integer
without extending or invalidating it: not a digit and not a
fraction/exponent starter.  Every separator this system's serializer can
emit after a number (comma, closing bracket, closing brace, end of input)
satisfies it. -/
def numGuard : List Char → Prop
  | [] => True
  | c :: _ => Char.isDigit c = false ∧ c ≠ '.' ∧ c ≠ 'e' ∧ c ≠ 'E'

/-- `json.loads` model: parse one value, require the remainder to be
whitespace only. -/
def loadsJ (l : List Char) : Option Jv :=
  match parseJ (l.length + 1) l with
  | some (v, rest) => if skipWs rest = [] then some v else none
  | none => none

/-- `dict.get` with Python overwrite semantics for duplicate keys: the last
occurrence of a key wins. -/
def jLookup (ms : List (String × Jv)) (k : String) : Option Jv :=
  (ms.reverse.find? (fun p => p.1 == k)).map (fun p => p.2)

/-! ### Wire codec: sentinel framing and the orchestrator -/

/-- The sentinel chunk every handler yields before its trailer JSON:
`b"\n---END_STAGE---\n"` (17 characters). -/
def sentinelYield : List Char := "\n---END_STAGE---\n".data

/-- The literal part of the orchestrator's regex
`---END_STAGE---\n(\x7b.*\x7d)`: the sentinel line plus the opening brace
of the capture (17 characters). -/
def sentinelBrace : List Char := "---END_STAGE---\n\x7b".data

/-- The shared 16-character core `"---END_STAGE---\n"`: `sentinelYield`
is a newline followed by it, `sentinelBrace` is it followed by a brace. -/
def sentCore : List Char := "---END_STAGE---\n".data

/-- `reply fragments ++ sentinel ++ trailer JSON`: the byte stream every
handler produces on a completed path. -/
def frameStream (reply trailerJson : List Char) : List Char :=
  reply ++ sentinelYield ++ trailerJson

/-- Greedy `\x7b.*\x7d` with `re.DOTALL`: keep everything up to the LAST
closing brace of the remaining text, or fail if there is none. -/
def lastSplitBrace (l : List Char) : Option (List Char) :=
  match l.reverse.dropWhile (fun c => c != '}') with
  | [] => none
  | r => some r.reverse

/-- `re.search(r'---END_STAGE---\n(\x7b.*\x7d)', full_text, re.DOTALL)`:
scan left to right for the FIRST position where the sentinel line followed
by an opening brace matches and a closing brace exists later; the capture
group runs greedily to the last closing brace. -/
def reTrailer : List Char → Option (List Char)
  | [] => none
  | c :: rest =>
    if sentinelBrace.isPrefixOf (c :: rest) then
      match lastSplitBrace ((c :: rest).drop 16) with
      | some cap => some cap
      | none => reTrailer rest
    else reTrailer rest

/-- The text after the LAST occurrence of the 17-character sentinel chunk,
if any — the decomposition a stream consumer relying on "the last trailer
in the stream" performs. -/
def afterLastSent : List Char → Option (List Char)
  | [] => none
  | c :: rest =>
    match afterLastSent rest with
    | some r => some r
    | none =>
      if sentinelYield.isPrefixOf (c :: rest) then some ((c :: rest).drop 17) else none

/-- The four fields `async_gen` adopts after the handler stream completes
(`src/main.py` lines 129-143). -/
structure AdoptedState where
  next_stage : String
  turn : Int
  history : List String
  response : String
deriving DecidableEq, Repr

def jAsStr : Option Jv → Option String
  | some (.str s) => some s
  | _ => none

def jAsInt : Option Jv → Option Int
  | some (.num n) => some n
  | _ => none

def jAsStrList : Option Jv → Option (List String)
  | some (.arr xs) => xs.mapM (fun x => match x with | .str s => some s | _ => none)
  | _ => none

/-- Trailer adoption in `async_gen`: regex-extract a candidate from the
accumulated `full_text`, `json.loads` it, and on success take
`next_stage`/`turn`/`history`/`response` with defaults
`state.stage`/`0`/`[]`/`""`; on no match or parse failure keep the prior
state's fields.  (A parsed non-object, whose `.get` raises, lands in the
`except` branch and also keeps the prior fields.) -/
def adoptState (state : MainAgentState) (full_text : List Char) : AdoptedState :=
  match reTrailer full_text with
  | none =>
    { next_stage := state.stage, turn := state.turn,
      history := state.history, response := state.response }
  | some cap =>
    match loadsJ cap with
    | some (.obj ms) =>
      { next_stage := (jAsStr (jLookup ms "next_stage")).getD state.stage,
        turn := (jAsInt (jLookup ms "turn")).getD 0,
        history := (jAsStrList (jLookup ms "history")).getD [],
        response := (jAsStr (jLookup ms "response")).getD "" }
    | _ =>
      { next_stage := state.stage, turn := state.turn,
        history := state.history, response := state.response }

def isStrJ : Jv → Bool
  | .str _ => true
  | _ => false

def isNumJ : Jv → Bool
  | .num _ => true
  | _ => false

def isStrArrJ : Jv → Bool
  | .arr xs => xs.all isStrJ
  | _ => false

def typedOrAbsent (o : Option Jv) (p : Jv → Bool) : Bool :=
  match o with
  | none => true
  | some v => p v

/-- Faithfulness region of `adoptState`: whenever the accumulated text does
yield a parsed trailer object, its four adopted keys (if present) carry the
types every handler of this repository writes (`next_stage` string, `turn`
int, `history` list of strings, `response` string).  Outside this region
CPython's untyped `result.get` adoption diverges from the typed model. -/
def WellTypedFullText (full_text : List Char) : Bool :=
  match reTrailer full_text with
  | none => true
  | some cap =>
    match loadsJ cap with
    | some (.obj ms) =>
      typedOrAbsent (jLookup ms "next_stage") isStrJ &&
      typedOrAbsent (jLookup ms "turn") isNumJ &&
      typedOrAbsent (jLookup ms "history") isStrArrJ &&
      typedOrAbsent (jLookup ms "response") isStrJ
    | _ => true

/-- The canonical trailer object `async_gen` always re-emits
(`src/main.py` lines 145-150), key order as in the source dict literal. -/
def canonicalTrailer (a : AdoptedState) : Jv :=
  .obj [("next_stage", .str a.next_stage),
        ("response", .str (if pstrip a.response = "" then "답변 생성 실패" else pstrip a.response)),
        ("turn", .num a.turn),
        ("history", .arr (a.history.map .str))]

/-- The stage keys of `agent_streams` in `src/main.py`. -/
def handledStages : List String := ["empathy", "mi", "cbt1", "cbt2", "cbt3"]

/-- `r"⚠️ 모델이 아직 준비되지 않았습니다.\n"` — a Python raw string: the
trailing two characters are a literal backslash and `n`. -/
def model_not_ready_notice : String := "⚠️ 모델이 아직 준비되지 않았습니다.\\n"

/-- `r"⚠️ 지원되지 않는 단계입니다.\n"` — likewise a raw string. -/
def unsupported_stage_notice : String := "⚠️ 지원되지 않는 단계입니다.\\n"

/-- The byte stream `async_gen` sends to the caller.  `collected` is the
prefix of the handler's own stream that was actually produced (what
`collect_stream` accumulated into `full_text`); `errNote` is the
`"\n⚠️ 답변 생성 오류: ..."` chunk yielded when the handler raised (it is
sent to the caller but is NOT part of `full_text`), empty otherwise.  On
the model-not-ready and unknown-stage paths the generator returns after a
bare notice — no trailer is ever appended there. -/
def asyncGenBody (model_ready : Bool) (state : MainAgentState) (collected errNote : List Char) :
    List Char :=
  if model_ready = false then model_not_ready_notice.data
  else if (handledStages.contains state.stage) = false then unsupported_stage_notice.data
  else collected ++ errNote ++ sentinelYield ++ dumpsJ (canonicalTrailer (adoptState state collected))

/-! ### Concrete instances used by counterexamples and witnesses -/

/-- A similarity oracle that never fires (any concrete run of the difflib
check on dissimilar strings). -/
def simNever : String → String → Bool := fun _ _ => false

/-- A reply text that itself contains the sentinel line followed by an
opening brace — the case §4.4 of the spec singles out. -/
def evilReply : List Char := "조금 쉬어도 괜찮아요\n---END_STAGE---\n\x7b오류\x7d".data

/-- A representative valid trailer object. -/
def exTrailerJv : Jv :=
  .obj [("next_stage", .str "mi"), ("turn", .num 2), ("response", .str "좋아요"),
        ("history", .arr [.str "질문", .str "좋아요"])]

/-- `result.get("turn", 0)` applied to a successfully parsed handler
trailer whose key set is described by a `Trailer` record. -/
def adoptTurn (t : Trailer) : Int :=
  t.turn.getD 0

set_option maxRecDepth 16000

/-! ## Theorems -/

/-! ### Helper lemmas -/

theorem content_mem_of_mem_altMsgs : ∀ (l : List String) (m : Message),
    m ∈ altMsgs l → m.content ∈ l
  | [], m, h => by simp [altMsgs] at h
  | [u], m, h => by
      simp [altMsgs] at h
      subst h
      simp
  | u :: a :: rest, m, h => by
      simp only [altMsgs, List.mem_cons] at h
      rcases h with h | h | h
      · subst h; simp
      · subst h; simp
      · have := content_mem_of_mem_altMsgs rest m h
        simp [this]

theorem exists_mem_altMsgs : ∀ (l : List String) (e : String), e ∈ l →
    ∃ m, m ∈ altMsgs l ∧ m.content = e
  | [], e, h => absurd h (List.not_mem_nil e)
  | [u], e, h => by
      simp only [List.mem_singleton] at h
      subst h
      exact ⟨{ role := "user", content := e }, by simp [altMsgs], rfl⟩
  | u :: a :: rest, e, h => by
      rcases List.mem_cons.mp h with h | h
      · subst h
        exact ⟨{ role := "user", content := e }, by simp [altMsgs], rfl⟩
      rcases List.mem_cons.mp h with h | h
      · subst h
        exact ⟨{ role := "assistant", content := e }, by simp [altMsgs], rfl⟩
      · obtain ⟨m, hm, hc⟩ := exists_mem_altMsgs rest e h
        exact ⟨m, by simp [altMsgs, hm], hc⟩

theorem exists_mem_pairMsgs : ∀ (l : List String) (e : String), l.length % 2 = 0 → e ∈ l →
    ∃ m, m ∈ pairMsgs l ∧ m.content = e
  | [], e, _, h => absurd h (List.not_mem_nil e)
  | [u], e, hp, h => by simp at hp
  | u :: a :: rest, e, hp, h => by
      have hp2 : rest.length % 2 = 0 := by
        simp only [List.length_cons] at hp
        omega
      rcases List.mem_cons.mp h with h | h
      · subst h
        exact ⟨{ role := "user", content := e }, by simp [pairMsgs], rfl⟩
      rcases List.mem_cons.mp h with h | h
      · subst h
        exact ⟨{ role := "assistant", content := e }, by simp [pairMsgs], rfl⟩
      · obtain ⟨m, hm, hc⟩ := exists_mem_pairMsgs rest e hp2 h
        exact ⟨m, by simp [pairMsgs, hm], hc⟩

/-! ### C9, C10 (confirmed) -/

/-- C9: the empathy handler carries no transcript: on every path (length
fallback, successful generation, generation error) the emitted trailer's
history is exactly the two entries [trimmed question, emitted response] —
the incoming history is discarded (the orchestrator hands this handler only
`state.question.strip()` and `state.turn`, never `state.history`). -/
theorem empathy_history_reset (u : String) (t : Int) (g : Gen) :
    (stream_empathy_reply u t g).trailer.history
      = [pstrip u, (stream_empathy_reply u t g).trailer.response]
    ∧ (stream_empathy_reply u t g).trailer.history.length = 2 := by
  cases g <;> simp [stream_empathy_reply] <;> split_ifs <;> simp

/-- C10: no trailer the mi handler can emit carries a `turn` key (all four
of its emission paths write an object without that key), so the
orchestrator's `result.get("turn", 0)` adopts 0 for every successfully
parsed mi trailer, and the canonical trailer re-emitted to the caller
reports turn 0 regardless of the incoming turn. -/
theorem mi_turn_defaults_zero (ms : MiAgentState) (g : Gen) :
    (stream_mi_reply ms g).trailer.turn = none
    ∧ adoptTurn (stream_mi_reply ms g).trailer = 0 := by
  cases g <;> simp [stream_mi_reply, adoptTurn] <;> split_ifs <;> simp

/-! ### C1 (corrected): turn/stage transition law -/

/-- C1 counterexample: the mi stage handler, on a completed substantive
turn, emits a trailer with NO turn value at all (`turn = none`), so the
claimed "trailer turn equals input turn + 1" fails for every input turn;
its stage switch is driven by the history length instead. -/
theorem turn_transition_counterexample :
    (stream_mi_reply
        { question := "요즘 너무 힘들어요", response := "", history := [], intro_shown := true }
        (Gen.ok "그러셨군요, 어떤 점이 가장 힘드신가요?")).trailer.turn = none
    ∧ (stream_mi_reply
        { question := "요즘 너무 힘들어요", response := "",
          history := ["u1", "a1", "u2", "a2", "u3", "a3", "u4", "a4"], intro_shown := true }
        (Gen.ok "그러셨군요.")).trailer.next_stage = "cbt1" := by
  constructor <;> rfl

/-- C1 amended: the turn law with limit 5 holds for empathy (successor mi),
cbt1 (successor cbt2), cbt2 (successor cbt3) and cbt3 (successor end): on a
completed substantive turn with input turn in [0,3] the stage is kept and
the trailer turn is input+1, and at input turn 4 the successor is entered
with trailer turn 0.  The mi handler instead emits no turn field and
switches to cbt1 exactly when `len(history)//2 + 1 >= 5`. -/
theorem turn_transition_amended :
    (∀ (u text : String) (t : Int), 3 ≤ (pstrip u).length → 0 ≤ t → t ≤ 3 →
      (stream_empathy_reply u t (Gen.ok text)).trailer.next_stage = "empathy"
      ∧ (stream_empathy_reply u t (Gen.ok text)).trailer.turn = some (t + 1))
    ∧ (∀ (u text : String), 3 ≤ (pstrip u).length →
      (stream_empathy_reply u 4 (Gen.ok text)).trailer.next_stage = "mi"
      ∧ (stream_empathy_reply u 4 (Gen.ok text)).trailer.turn = some 0)
    ∧ (∀ (s : Cbt1AgentState) (text : String), s.intro_shown = true → pstrip s.question ≠ "" →
        0 ≤ s.turn → s.turn ≤ 3 →
      (stream_cbt1_reply s (Gen.ok text)).trailer.next_stage = "cbt1"
      ∧ (stream_cbt1_reply s (Gen.ok text)).trailer.turn = some (s.turn + 1))
    ∧ (∀ (s : Cbt1AgentState) (text : String), s.intro_shown = true → pstrip s.question ≠ "" →
        s.turn = 4 →
      (stream_cbt1_reply s (Gen.ok text)).trailer.next_stage = "cbt2"
      ∧ (stream_cbt1_reply s (Gen.ok text)).trailer.turn = some 0)
    ∧ (∀ (s : Cbt2AgentState) (text : String) (sim : String → String → Bool),
        s.intro_shown = true → pstrip s.question ≠ "" → 0 ≤ s.turn → s.turn ≤ 3 →
      (stream_cbt2_reply s (Gen.ok text) sim).trailer.next_stage = "cbt2"
      ∧ (stream_cbt2_reply s (Gen.ok text) sim).trailer.turn = some (s.turn + 1))
    ∧ (∀ (s : Cbt2AgentState) (text : String) (sim : String → String → Bool),
        s.intro_shown = true → pstrip s.question ≠ "" → s.turn = 4 →
      (stream_cbt2_reply s (Gen.ok text) sim).trailer.next_stage = "cbt3"
      ∧ (stream_cbt2_reply s (Gen.ok text) sim).trailer.turn = some 0)
    ∧ (∀ (s : Cbt3AgentState) (text : String) (sim : String → String → Bool),
        s.intro_shown = true → pstrip s.question ≠ "" → 0 ≤ s.turn → s.turn ≤ 3 →
      (stream_cbt3_reply s (Gen.ok text) sim).trailer.next_stage = "cbt3"
      ∧ (stream_cbt3_reply s (Gen.ok text) sim).trailer.turn = some (s.turn + 1))
    ∧ (∀ (s : Cbt3AgentState) (text : String) (sim : String → String → Bool),
        s.intro_shown = true → pstrip s.question ≠ "" → s.turn = 4 →
      (stream_cbt3_reply s (Gen.ok text) sim).trailer.next_stage = "end"
      ∧ (stream_cbt3_reply s (Gen.ok text) sim).trailer.turn = some 0)
    ∧ (∀ (ms : MiAgentState) (text : String), ms.intro_shown = true →
        2 ≤ (pstrip ms.question).length →
      (stream_mi_reply ms (Gen.ok text)).trailer.turn = none
      ∧ (stream_mi_reply ms (Gen.ok text)).trailer.next_stage
          = (if ms.history.length / 2 + 1 ≥ 5 then "cbt1" else "mi")) := by
  refine ⟨?_, ?_, ?_, ?_, ?_, ?_, ?_, ?_, ?_⟩
  · intro u text t h1 h2 h3
    simp [stream_empathy_reply, show ¬ ((pstrip u).length < 3) by omega, show ¬ ((4:Int) ≤ t) by omega]
  · intro u text h1
    simp [stream_empathy_reply, show ¬ ((pstrip u).length < 3) by omega]
  · intro s text h1 h2 h3 h4
    simp [stream_cbt1_reply, h1, h2, show ¬ ((5:Int) ≤ s.turn + 1) by omega]
  · intro s text h1 h2 h3
    simp [stream_cbt1_reply, h1, h2, h3]
  · intro s text sim h1 h2 h3 h4
    simp [stream_cbt2_reply, h1, h2, show ¬ ((5:Int) ≤ s.turn + 1) by omega]
  · intro s text sim h1 h2 h3
    simp [stream_cbt2_reply, h1, h2, h3]
  · intro s text sim h1 h2 h3 h4
    simp [stream_cbt3_reply, h1, h2, show ¬ ((5:Int) ≤ s.turn + 1) by omega]
  · intro s text sim h1 h2 h3
    simp [stream_cbt3_reply, h1, h2, h3]
  · intro ms text h1 h2
    have hne : pstrip ms.question ≠ "" := by
      intro hh
      rw [hh] at h2
      simp at h2
    simp [stream_mi_reply, h1, hne, show ¬ ((pstrip ms.question).length < 2) by omega]

/-- C1 amended witness: the eight turn-law conjuncts and the mi conjunct
instantiated at concrete states. -/
theorem turn_transition_amended_witness :
    ((stream_empathy_reply "오늘 하루가 힘들었어요" 2 (Gen.ok "네")).trailer.next_stage = "empathy"
      ∧ (stream_empathy_reply "오늘 하루가 힘들었어요" 2 (Gen.ok "네")).trailer.turn = some 3)
    ∧ ((stream_empathy_reply "오늘 하루가 힘들었어요" 4 (Gen.ok "네")).trailer.next_stage = "mi"
      ∧ (stream_empathy_reply "오늘 하루가 힘들었어요" 4 (Gen.ok "네")).trailer.turn = some 0)
    ∧ ((stream_cbt1_reply
          { stage := "cbt1", question := "걱정이 돼요", response := "", history := [],
            turn := 1, intro_shown := true, pending_response := none }
          (Gen.ok "네")).trailer.next_stage = "cbt1"
      ∧ (stream_cbt1_reply
          { stage := "cbt1", question := "걱정이 돼요", response := "", history := [],
            turn := 1, intro_shown := true, pending_response := none }
          (Gen.ok "네")).trailer.turn = some 2)
    ∧ ((stream_cbt1_reply
          { stage := "cbt1", question := "걱정이 돼요", response := "", history := [],
            turn := 4, intro_shown := true, pending_response := none }
          (Gen.ok "네")).trailer.next_stage = "cbt2")
    ∧ ((stream_cbt2_reply
          { question := "그 생각이 맞을까요", response := "", history := [],
            turn := 0, intro_shown := true }
          (Gen.ok "네") simNever).trailer.turn = some 1)
    ∧ ((stream_cbt2_reply
          { question := "그 생각이 맞을까요", response := "", history := [],
            turn := 4, intro_shown := true }
          (Gen.ok "네") simNever).trailer.next_stage = "cbt3")
    ∧ ((stream_cbt3_reply
          { stage := "cbt3", question := "산책부터 해볼게요", response := "", history := [],
            turn := 3, intro_shown := true, awaiting_preparation_decision := false,
            pending_response := none }
          (Gen.ok "네") simNever).trailer.turn = some 4)
    ∧ ((stream_cbt3_reply
          { stage := "cbt3", question := "산책부터 해볼게요", response := "", history := [],
            turn := 4, intro_shown := true, awaiting_preparation_decision := false,
            pending_response := none }
          (Gen.ok "네") simNever).trailer.next_stage = "end")
    ∧ ((stream_mi_reply
          { question := "마음이 복잡해요", response := "", history := ["u1", "a1"],
            intro_shown := true }
          (Gen.ok "네")).trailer.turn = none) := by
  refine ⟨?_, ?_, ?_, ?_, ?_, ?_, ?_, ?_, ?_⟩
  · exact turn_transition_amended.1 "오늘 하루가 힘들었어요" "네" 2 (by decide) (by decide) (by decide)
  · exact turn_transition_amended.2.1 "오늘 하루가 힘들었어요" "네" (by decide)
  · exact turn_transition_amended.2.2.1 _ "네" (by decide) (by decide) (by decide) (by decide)
  · exact (turn_transition_amended.2.2.2.1 _ "네" (by decide) (by decide) (by decide)).1
  · exact (turn_transition_amended.2.2.2.2.1 _ "네" simNever (by decide) (by decide) (by decide)
      (by decide)).2
  · exact (turn_transition_amended.2.2.2.2.2.1 _ "네" simNever (by decide) (by decide)
      (by decide)).1
  · exact (turn_transition_amended.2.2.2.2.2.2.1 _ "네" simNever (by decide) (by decide)
      (by decide) (by decide)).2
  · exact (turn_transition_amended.2.2.2.2.2.2.2.1 _ "네" simNever (by decide) (by decide)
      (by decide)).1
  · exact (turn_transition_amended.2.2.2.2.2.2.2.2 _ "네" (by decide) (by decide)).1

/-! ### C2 (corrected): generation-failure atomicity -/

/-- C2 counterexample: when the Generation Port raises inside the cbt3
handler, the emitted trailer neither keeps the input stage (it jumps to
"end") nor the input turn (it resets to 0). -/
theorem error_path_state_counterexample :
    (stream_cbt3_reply
        { stage := "cbt3", question := "운동을 시작해볼게요", response := "",
          history := ["u1", "a1"], turn := 2, intro_shown := true,
          awaiting_preparation_decision := false, pending_response := none }
        Gen.err simNever).trailer.next_stage ≠ "cbt3"
    ∧ (stream_cbt3_reply
        { stage := "cbt3", question := "운동을 시작해볼게요", response := "",
          history := ["u1", "a1"], turn := 2, intro_shown := true,
          awaiting_preparation_decision := false, pending_response := none }
        Gen.err simNever).trailer.turn ≠ some 2
    ∧ (stream_mi_reply
        { question := "마음이 무거워요", response := "", history := ["u1", "a1"],
          intro_shown := true }
        Gen.err).trailer.history ≠ ["u1", "a1"] := by
  refine ⟨by decide, by decide, by decide⟩

/-- C2 amended: the per-handler error contracts actually implemented.  On a
Generation Port failure with a substantive input, empathy keeps stage and
turn but replaces history with [question, fallback]; mi keeps the stage and
appends the bare user input to history (and emits no turn); cbt1 keeps
stage, turn and history unchanged; cbt2 keeps the stage but increments the
turn and appends the bare user input; cbt3 transitions to "end" with turn 0
and history unchanged. -/
theorem error_path_state_amended :
    (∀ (u : String) (t : Int), 3 ≤ (pstrip u).length →
      (stream_empathy_reply u t Gen.err).trailer.next_stage = "empathy"
      ∧ (stream_empathy_reply u t Gen.err).trailer.turn = some t
      ∧ (stream_empathy_reply u t Gen.err).trailer.history
          = [pstrip u, empathy_error_fallback])
    ∧ (∀ (ms : MiAgentState), ms.intro_shown = true → 2 ≤ (pstrip ms.question).length →
      (stream_mi_reply ms Gen.err).trailer.next_stage = "mi"
      ∧ (stream_mi_reply ms Gen.err).trailer.turn = none
      ∧ (stream_mi_reply ms Gen.err).trailer.history = ms.history ++ [pstrip ms.question])
    ∧ (∀ (s : Cbt1AgentState), s.intro_shown = true → pstrip s.question ≠ "" →
      (stream_cbt1_reply s Gen.err).trailer.next_stage = "cbt1"
      ∧ (stream_cbt1_reply s Gen.err).trailer.turn = some s.turn
      ∧ (stream_cbt1_reply s Gen.err).trailer.history = s.history)
    ∧ (∀ (s : Cbt2AgentState) (sim : String → String → Bool),
        s.intro_shown = true → pstrip s.question ≠ "" →
      (stream_cbt2_reply s Gen.err sim).trailer.next_stage = "cbt2"
      ∧ (stream_cbt2_reply s Gen.err sim).trailer.turn = some (s.turn + 1)
      ∧ (stream_cbt2_reply s Gen.err sim).trailer.history
          = s.history ++ [pstrip s.question])
    ∧ (∀ (s : Cbt3AgentState) (sim : String → String → Bool),
        s.intro_shown = true → pstrip s.question ≠ "" →
      (stream_cbt3_reply s Gen.err sim).trailer.next_stage = "end"
      ∧ (stream_cbt3_reply s Gen.err sim).trailer.turn = some 0
      ∧ (stream_cbt3_reply s Gen.err sim).trailer.history = s.history) := by
  refine ⟨?_, ?_, ?_, ?_, ?_⟩
  · intro u t h1
    simp [stream_empathy_reply, show ¬ ((pstrip u).length < 3) by omega]
  · intro ms h1 h2
    have hne : pstrip ms.question ≠ "" := by
      intro hh
      rw [hh] at h2
      simp at h2
    simp [stream_mi_reply, h1, hne, show ¬ ((pstrip ms.question).length < 2) by omega]
  · intro s h1 h2
    simp [stream_cbt1_reply, h1, h2]
  · intro s sim h1 h2
    simp [stream_cbt2_reply, h1, h2]
  · intro s sim h1 h2
    simp [stream_cbt3_reply, h1, h2]

/-- C2 amended witness: the five error contracts instantiated at concrete
states. -/
theorem error_path_state_amended_witness :
    ((stream_empathy_reply "너무 외로워요" 1 Gen.err).trailer.turn = some 1)
    ∧ ((stream_mi_reply
          { question := "마음이 무거워요", response := "", history := ["u1", "a1"],
            intro_shown := true } Gen.err).trailer.history = ["u1", "a1", "마음이 무거워요"])
    ∧ ((stream_cbt1_reply
          { stage := "cbt1", question := "걱정이 돼요", response := "", history := ["u1", "a1"],
            turn := 2, intro_shown := true, pending_response := none }
          Gen.err).trailer.history = ["u1", "a1"])
    ∧ ((stream_cbt2_reply
          { question := "그 생각이 맞을까요", response := "", history := [],
            turn := 2, intro_shown := true } Gen.err simNever).trailer.turn = some 3)
    ∧ ((stream_cbt3_reply
          { stage := "cbt3", question := "산책부터 해볼게요", response := "", history := [],
            turn := 1, intro_shown := true, awaiting_preparation_decision := false,
            pending_response := none } Gen.err simNever).trailer.next_stage = "end") := by
  refine ⟨?_, ?_, ?_, ?_, ?_⟩
  · exact (error_path_state_amended.1 "너무 외로워요" 1 (by decide)).2.1
  · exact (error_path_state_amended.2.1 _ (by decide) (by decide)).2.2
  · exact (error_path_state_amended.2.2.1 _ (by decide) (by decide)).2.2
  · exact (error_path_state_amended.2.2.2.1 _ simNever (by decide) (by decide)).2.1
  · exact (error_path_state_amended.2.2.2.2 _ simNever (by decide) (by decide)).1

/-! ### C5 (corrected): idempotent history append -/

/-- C5 counterexample: the mi handler has no idempotent-append guard — with
the input history already ending in exactly the (question, reply) pair, a
completed turn appends the pair again, duplicating it. -/
theorem history_append_counterexample :
    lastPairIs ["같은 질문", "같은 답변"] "같은 질문"
      ((stream_mi_reply
          { question := "같은 질문", response := "", history := ["같은 질문", "같은 답변"],
            intro_shown := true } (Gen.ok "같은 답변")).trailer.response) = true
    ∧ (stream_mi_reply
          { question := "같은 질문", response := "", history := ["같은 질문", "같은 답변"],
            intro_shown := true } (Gen.ok "같은 답변")).trailer.history
        = ["같은 질문", "같은 답변", "같은 질문", "같은 답변"] := by
  refine ⟨by decide, by decide⟩

/-- C5 amended: only cbt1 implements the idempotent-append guard (checking
the last two history entries against the exact pair before extending); mi,
cbt2 and cbt3 append the (question, reply) pair unconditionally, duplicating
an already-identical trailing pair, and empathy replaces the history
outright with exactly that pair. -/
theorem history_append_amended :
    (∀ (s : Cbt1AgentState) (text : String), s.intro_shown = true → pstrip s.question ≠ "" →
      lastPairIs s.history (pstrip s.question)
          ((stream_cbt1_reply s (Gen.ok text)).trailer.response) = true →
      (stream_cbt1_reply s (Gen.ok text)).trailer.history = s.history)
    ∧ (∀ (s : Cbt1AgentState) (text : String), s.intro_shown = true → pstrip s.question ≠ "" →
      lastPairIs s.history (pstrip s.question)
          ((stream_cbt1_reply s (Gen.ok text)).trailer.response) = false →
      (stream_cbt1_reply s (Gen.ok text)).trailer.history
        = s.history ++ [pstrip s.question, (stream_cbt1_reply s (Gen.ok text)).trailer.response])
    ∧ (∀ (ms : MiAgentState) (text : String), ms.intro_shown = true →
        2 ≤ (pstrip ms.question).length →
      (stream_mi_reply ms (Gen.ok text)).trailer.history
        = ms.history ++ [pstrip ms.question, (stream_mi_reply ms (Gen.ok text)).trailer.response])
    ∧ (∀ (s : Cbt2AgentState) (text : String) (sim : String → String → Bool),
        s.intro_shown = true → pstrip s.question ≠ "" →
      (stream_cbt2_reply s (Gen.ok text) sim).trailer.history
        = s.history ++ [pstrip s.question,
            (stream_cbt2_reply s (Gen.ok text) sim).trailer.response])
    ∧ (∀ (s : Cbt3AgentState) (text : String) (sim : String → String → Bool),
        s.intro_shown = true → pstrip s.question ≠ "" →
      (stream_cbt3_reply s (Gen.ok text) sim).trailer.history
        = s.history ++ [pstrip s.question,
            (stream_cbt3_reply s (Gen.ok text) sim).trailer.response])
    ∧ (∀ (u text : String) (t : Int), 3 ≤ (pstrip u).length →
      (stream_empathy_reply u t (Gen.ok text)).trailer.history
        = [pstrip u, (stream_empathy_reply u t (Gen.ok text)).trailer.response]) := by
  refine ⟨?_, ?_, ?_, ?_, ?_, ?_⟩
  · intro s text h1 h2 h3
    simp [stream_cbt1_reply, h1, h2] at h3 ⊢
    simp [h3]
  · intro s text h1 h2 h3
    simp [stream_cbt1_reply, h1, h2] at h3 ⊢
    simp [h3]
  · intro ms text h1 h2
    have hne : pstrip ms.question ≠ "" := by
      intro hh
      rw [hh] at h2
      simp at h2
    simp [stream_mi_reply, h1, hne, show ¬ ((pstrip ms.question).length < 2) by omega]
  · intro s text sim h1 h2
    simp [stream_cbt2_reply, h1, h2]
  · intro s text sim h1 h2
    simp [stream_cbt3_reply, h1, h2]
  · intro u text t h1
    simp [stream_empathy_reply, show ¬ ((pstrip u).length < 3) by omega]

/-- C5 amended witness: the guard keeps cbt1's history unchanged on an
exact re-submission; mi and cbt3 append (duplicating) regardless; empathy
replaces the history with the pair. -/
theorem history_append_amended_witness :
    (stream_cbt1_reply
        { stage := "cbt1", question := "걱정이 돼요", response := "",
          history := ["걱정이 돼요", "그 걱정은 언제 시작되었나요?"], turn := 1,
          intro_shown := true, pending_response := none }
        (Gen.ok "그 걱정은 언제 시작되었나요?")).trailer.history
      = ["걱정이 돼요", "그 걱정은 언제 시작되었나요?"]
    ∧ (stream_mi_reply
        { question := "안녕하세요", response := "", history := ["안녕하세요", "반갑습니다"],
          intro_shown := true } (Gen.ok "반갑습니다")).trailer.history
      = ["안녕하세요", "반갑습니다", "안녕하세요", "반갑습니다"]
    ∧ (stream_cbt3_reply
        { stage := "cbt3", question := "같은 계획", response := "",
          history := ["같은 계획", "좋은 계획이에요"], turn := 1, intro_shown := true,
          awaiting_preparation_decision := false, pending_response := none }
        (Gen.ok "좋은 계획이에요") simNever).trailer.history
      = ["같은 계획", "좋은 계획이에요", "같은 계획",
          (stream_cbt3_reply
            { stage := "cbt3", question := "같은 계획", response := "",
              history := ["같은 계획", "좋은 계획이에요"], turn := 1, intro_shown := true,
              awaiting_preparation_decision := false, pending_response := none }
            (Gen.ok "좋은 계획이에요") simNever).trailer.response]
    ∧ (stream_empathy_reply "혼자인 것 같아요" 2 (Gen.ok "많이 외로우셨겠어요.")).trailer.history
      = ["혼자인 것 같아요", "많이 외로우셨겠어요."] := by
  refine ⟨?_, ?_, ?_, ?_⟩
  · exact history_append_amended.1 _ "그 걱정은 언제 시작되었나요?" (by decide) (by decide) (by decide)
  · exact history_append_amended.2.2.1 _ "반갑습니다" (by decide) (by decide)
  · exact history_append_amended.2.2.2.2.1 _ "좋은 계획이에요" simNever (by decide) (by decide)
  · exact history_append_amended.2.2.2.2.2 "혼자인 것 같아요" "많이 외로우셨겠어요." 2 (by decide)

/-! ### C6 (corrected): intro behavior -/

/-- C6 counterexample: the cbt1 intro trailer reports turn 0 even when the
input state arrives with turn 3 — the intro path does not keep the input
turn. -/
theorem intro_behavior_counterexample :
    (stream_cbt1_reply
        { stage := "cbt1", question := "생각을 말해볼게요", response := "", history := [],
          turn := 3, intro_shown := false, pending_response := none }
        (Gen.ok "네")).trailer.turn = some 0
    ∧ (stream_cbt1_reply
        { stage := "cbt1", question := "생각을 말해볼게요", response := "", history := [],
          turn := 3, intro_shown := false, pending_response := none }
        (Gen.ok "네")).trailer.turn ≠ some 3 := by
  refine ⟨by decide, by decide⟩

/-- C6 amended: with `introShown` false, each of mi/cbt1/cbt2/cbt3 emits
its fixed intro without driving the Generation Port, keeps its own stage,
marks intro_shown true and appends exactly the intro to history — but the
trailer turn is 0 for cbt1/cbt2/cbt3 (whatever the input turn was) and
absent for mi, not "the same turn as the input". -/
theorem intro_behavior_amended :
    (∀ (ms : MiAgentState) (g : Gen), ms.intro_shown = false →
      (stream_mi_reply ms g).usedModel = false
      ∧ (stream_mi_reply ms g).trailer.next_stage = "mi"
      ∧ (stream_mi_reply ms g).trailer.turn = none
      ∧ (stream_mi_reply ms g).trailer.response = mi_intro
      ∧ (stream_mi_reply ms g).trailer.history = ms.history ++ [mi_intro]
      ∧ (stream_mi_reply ms g).trailer.intro_shown = some true)
    ∧ (∀ (s : Cbt1AgentState) (g : Gen), s.intro_shown = false →
      (stream_cbt1_reply s g).usedModel = false
      ∧ (stream_cbt1_reply s g).trailer.next_stage = "cbt1"
      ∧ (stream_cbt1_reply s g).trailer.turn = some 0
      ∧ (stream_cbt1_reply s g).trailer.response = cbt1_intro
      ∧ (stream_cbt1_reply s g).trailer.history = s.history ++ [cbt1_intro]
      ∧ (stream_cbt1_reply s g).trailer.intro_shown = some true)
    ∧ (∀ (s : Cbt2AgentState) (g : Gen) (sim : String → String → Bool), s.intro_shown = false →
      (stream_cbt2_reply s g sim).usedModel = false
      ∧ (stream_cbt2_reply s g sim).trailer.next_stage = "cbt2"
      ∧ (stream_cbt2_reply s g sim).trailer.turn = some 0
      ∧ (stream_cbt2_reply s g sim).trailer.response = cbt2_intro
      ∧ (stream_cbt2_reply s g sim).trailer.history = s.history ++ [cbt2_intro]
      ∧ (stream_cbt2_reply s g sim).trailer.intro_shown = some true)
    ∧ (∀ (s : Cbt3AgentState) (g : Gen) (sim : String → String → Bool), s.intro_shown = false →
      (stream_cbt3_reply s g sim).usedModel = false
      ∧ (stream_cbt3_reply s g sim).trailer.next_stage = "cbt3"
      ∧ (stream_cbt3_reply s g sim).trailer.turn = some 0
      ∧ (stream_cbt3_reply s g sim).trailer.response = cbt3_intro
      ∧ (stream_cbt3_reply s g sim).trailer.history = s.history ++ [cbt3_intro]
      ∧ (stream_cbt3_reply s g sim).trailer.intro_shown = some true) := by
  refine ⟨?_, ?_, ?_, ?_⟩
  · intro ms g h
    simp [stream_mi_reply, h]
  · intro s g h
    simp [stream_cbt1_reply, h]
  · intro s g sim h
    simp [stream_cbt2_reply, h]
  · intro s g sim h
    simp [stream_cbt3_reply, h]

/-- C6 amended witness: the four intro contracts at concrete states. -/
theorem intro_behavior_amended_witness :
    ((stream_mi_reply
        { question := "안녕하세요", response := "", history := [], intro_shown := false }
        (Gen.ok "네")).trailer.response = mi_intro)
    ∧ ((stream_cbt1_reply
        { stage := "cbt1", question := "안녕하세요", response := "", history := ["u1"],
          turn := 2, intro_shown := false, pending_response := none }
        (Gen.ok "네")).trailer.history = ["u1", cbt1_intro])
    ∧ ((stream_cbt2_reply
        { question := "안녕하세요", response := "", history := [], turn := 1,
          intro_shown := false } (Gen.ok "네") simNever).trailer.turn = some 0)
    ∧ ((stream_cbt3_reply
        { stage := "cbt3", question := "안녕하세요", response := "", history := [], turn := 1,
          intro_shown := false, awaiting_preparation_decision := false,
          pending_response := none } (Gen.ok "네") simNever).usedModel = false) := by
  refine ⟨?_, ?_, ?_, ?_⟩
  · exact (intro_behavior_amended.1 _ (Gen.ok "네") (by decide)).2.2.2.1
  · exact (intro_behavior_amended.2.1 _ (Gen.ok "네") (by decide)).2.2.2.2.1
  · exact (intro_behavior_amended.2.2.1 _ (Gen.ok "네") simNever (by decide)).2.2.1
  · exact (intro_behavior_amended.2.2.2 _ (Gen.ok "네") simNever (by decide)).1

/-! ### C7 (corrected): low-signal input fallback -/

/-- C7 counterexample: the filler-only utterance "ㅋㅋㅋ" (three characters)
passes the empathy handler's `len < 3` gate, so the Generation Port IS
invoked; and the cbt2 empty-input fallback advances the turn rather than
keeping it. -/
theorem low_signal_counterexample :
    (stream_empathy_reply "ㅋㅋㅋ" 0 (Gen.ok "많이 웃으셨네요.")).usedModel = true
    ∧ (stream_cbt2_reply
        { question := "", response := "", history := [], turn := 2, intro_shown := true }
        (Gen.ok "네") simNever).trailer.turn = some 3
    ∧ (stream_cbt2_reply
        { question := "", response := "", history := [], turn := 2, intro_shown := true }
        (Gen.ok "네") simNever).trailer.turn ≠ some 2 := by
  refine ⟨by decide, by decide, by decide⟩

/-- C7 amended: the low-signal gates are length-only (no filler-pattern
check exists): empathy falls back when the trimmed question is shorter than
3 characters, mi when shorter than 2, cbt1/cbt2/cbt3 only when it is empty.
On these paths the Generation Port is never driven and the stage is kept;
the turn is kept by empathy/cbt1/cbt3, absent from mi's trailer, and
INCREMENTED by cbt2 (which also appends ["", fallback] to history). -/
theorem low_signal_amended :
    (∀ (u : String) (t : Int) (g : Gen), (pstrip u).length < 3 →
      (stream_empathy_reply u t g).usedModel = false
      ∧ (stream_empathy_reply u t g).trailer.next_stage = "empathy"
      ∧ (stream_empathy_reply u t g).trailer.turn = some t
      ∧ (stream_empathy_reply u t g).trailer.response = empathy_fallback)
    ∧ (∀ (ms : MiAgentState) (g : Gen), ms.intro_shown = true →
        (pstrip ms.question).length < 2 →
      (stream_mi_reply ms g).usedModel = false
      ∧ (stream_mi_reply ms g).trailer.next_stage = "mi"
      ∧ (stream_mi_reply ms g).trailer.turn = none
      ∧ (stream_mi_reply ms g).trailer.response = mi_fallback)
    ∧ (∀ (s : Cbt1AgentState) (g : Gen), s.intro_shown = true → pstrip s.question = "" →
      (stream_cbt1_reply s g).usedModel = false
      ∧ (stream_cbt1_reply s g).trailer.next_stage = "cbt1"
      ∧ (stream_cbt1_reply s g).trailer.turn = some s.turn
      ∧ (stream_cbt1_reply s g).trailer.history = s.history)
    ∧ (∀ (s : Cbt2AgentState) (g : Gen) (sim : String → String → Bool),
        s.intro_shown = true → pstrip s.question = "" →
      (stream_cbt2_reply s g sim).usedModel = false
      ∧ (stream_cbt2_reply s g sim).trailer.next_stage = "cbt2"
      ∧ (stream_cbt2_reply s g sim).trailer.turn = some (s.turn + 1)
      ∧ (stream_cbt2_reply s g sim).trailer.history = s.history ++ ["", cbt2_fallback])
    ∧ (∀ (s : Cbt3AgentState) (g : Gen) (sim : String → String → Bool),
        s.intro_shown = true → pstrip s.question = "" →
      (stream_cbt3_reply s g sim).usedModel = false
      ∧ (stream_cbt3_reply s g sim).trailer.next_stage = "cbt3"
      ∧ (stream_cbt3_reply s g sim).trailer.turn = some s.turn
      ∧ (stream_cbt3_reply s g sim).trailer.history = s.history) := by
  refine ⟨?_, ?_, ?_, ?_, ?_⟩
  · intro u t g h
    simp [stream_empathy_reply, h]
  · intro ms g h1 h2
    simp [stream_mi_reply, h1, h2]
  · intro s g h1 h2
    simp [stream_cbt1_reply, h1, h2]
  · intro s g sim h1 h2
    simp [stream_cbt2_reply, h1, h2]
  · intro s g sim h1 h2
    simp [stream_cbt3_reply, h1, h2]

/-- C7 amended witness: the five fallback contracts at concrete states. -/
theorem low_signal_amended_witness :
    ((stream_empathy_reply "음" 1 (Gen.ok "네")).usedModel = false)
    ∧ ((stream_mi_reply
        { question := "아", response := "", history := [], intro_shown := true }
        (Gen.ok "네")).trailer.response = mi_fallback)
    ∧ ((stream_cbt1_reply
        { stage := "cbt1", question := " ", response := "", history := ["u1"], turn := 2,
          intro_shown := true, pending_response := none } (Gen.ok "네")).trailer.turn = some 2)
    ∧ ((stream_cbt2_reply
        { question := " ", response := "", history := [], turn := 2, intro_shown := true }
        (Gen.ok "네") simNever).trailer.turn = some 3)
    ∧ ((stream_cbt3_reply
        { stage := "cbt3", question := "", response := "", history := ["u1"], turn := 1,
          intro_shown := true, awaiting_preparation_decision := false,
          pending_response := none } (Gen.ok "네") simNever).trailer.history = ["u1"]) := by
  refine ⟨?_, ?_, ?_, ?_, ?_⟩
  · exact (low_signal_amended.1 "음" 1 (Gen.ok "네") (by decide)).1
  · exact (low_signal_amended.2.1 _ (Gen.ok "네") (by decide) (by decide)).2.2.2
  · exact (low_signal_amended.2.2.1 _ (Gen.ok "네") (by decide) (by decide)).2.2.1
  · exact (low_signal_amended.2.2.2.1 _ (Gen.ok "네") simNever (by decide) (by decide)).2.2.1
  · exact (low_signal_amended.2.2.2.2 _ (Gen.ok "네") simNever (by decide) (by decide)).2.2.2

/-! ### C8 (corrected): bounded history window -/

/-- C8 counterexample: with a 12-entry history, the cbt1 handler's message
list contains the oldest entry "u0", which is NOT among the last 10 history
entries — cbt1 (like cbt3) replays the entire history. -/
theorem history_window_counterexample :
    ({ role := "user", content := "u0" } : Message) ∈
      (stream_cbt1_reply
        { stage := "cbt1", question := "추가로 드는 생각이 있어요", response := "",
          history := ["u0", "a0", "u1", "a1", "u2", "a2", "u3", "a3", "u4", "a4", "u5", "a5"],
          turn := 1, intro_shown := true, pending_response := none }
        (Gen.ok "네")).messages
    ∧ "u0" ∉ lastTen ["u0", "a0", "u1", "a1", "u2", "a2", "u3", "a3", "u4", "a4", "u5", "a5"] := by
  refine ⟨by decide, by decide⟩

/-- C8 amended: mi and cbt2 do bound the replayed window — every message
they send is the stage system prompt, the current question, or drawn from
the last 10 history entries; cbt1 and cbt3, by contrast, replay the entire
history with no 10-entry bound (cbt1 only complete pairs): on their
generation paths every entry of an evenly paired history appears among
cbt1's messages, and every history entry (including a trailing unpaired
one) appears among cbt3's messages. -/
theorem history_window_amended :
    (∀ (ms : MiAgentState) (g : Gen) (m : Message), m ∈ (stream_mi_reply ms g).messages →
      m.content = mi_system_prompt ∨ m.content = pstrip ms.question
      ∨ m.content ∈ lastTen ms.history)
    ∧ (∀ (s : Cbt2AgentState) (g : Gen) (sim : String → String → Bool) (m : Message),
        m ∈ (stream_cbt2_reply s g sim).messages →
      m.content = cbt2_system_prompt ∨ m.content = pstrip s.question
      ∨ m.content ∈ lastTen s.history)
    ∧ (∀ (s : Cbt1AgentState) (text e : String), s.intro_shown = true →
        pstrip s.question ≠ "" → s.history.length % 2 = 0 → e ∈ s.history →
      ∃ m, m ∈ (stream_cbt1_reply s (Gen.ok text)).messages ∧ m.content = e)
    ∧ (∀ (s : Cbt3AgentState) (text : String) (sim : String → String → Bool) (e : String),
        s.intro_shown = true → pstrip s.question ≠ "" → e ∈ s.history →
      ∃ m, m ∈ (stream_cbt3_reply s (Gen.ok text) sim).messages ∧ m.content = e) := by
  refine ⟨?_, ?_, ?_, ?_⟩
  · intro ms g m hm
    by_cases h1 : ms.intro_shown = false
    · simp [stream_mi_reply, h1] at hm
    · by_cases h2 : pstrip ms.question = ""
      · simp [stream_mi_reply, h1, h2] at hm
      · by_cases h3 : (pstrip ms.question).length < 2
        · simp [stream_mi_reply, h1, h2, h3] at hm
        · cases g with
          | err => simp [stream_mi_reply, h1, h2, h3] at hm
          | ok text =>
            simp [stream_mi_reply, h1, h2, h3] at hm
            rcases hm with hm | hm | hm <;>
              first
                | (subst hm; simp)
                | exact Or.inr (Or.inr (content_mem_of_mem_altMsgs _ m hm))
  · intro s g sim m hm
    by_cases h1 : s.intro_shown = false
    · simp [stream_cbt2_reply, h1] at hm
    · by_cases h2 : pstrip s.question = ""
      · simp [stream_cbt2_reply, h1, h2] at hm
      · cases g with
        | err => simp [stream_cbt2_reply, h1, h2] at hm
        | ok text =>
          simp [stream_cbt2_reply, h1, h2] at hm
          rcases hm with hm | hm | hm <;>
            first
              | (subst hm; simp)
              | exact Or.inr (Or.inr (content_mem_of_mem_altMsgs _ m hm))
  · intro s text e h1 h2 h3 h4
    obtain ⟨m, hm, hc⟩ := exists_mem_pairMsgs s.history e h3 h4
    exact ⟨m, by simp [stream_cbt1_reply, h1, h2, hm], hc⟩
  · intro s text sim e h1 h2 h3
    obtain ⟨m, hm, hc⟩ := exists_mem_altMsgs s.history e h3
    exact ⟨m, by simp [stream_cbt3_reply, h1, h2, hm], hc⟩

/-- C8 amended witness: the window bound applied to a concrete mi message
and a concrete cbt2 message, and full-history replay applied to the oldest
entry of a 12-entry history for cbt1 and cbt3. -/
theorem history_window_amended_witness :
    (({ role := "user", content := "u2" } : Message).content = mi_system_prompt
      ∨ ({ role := "user", content := "u2" } : Message).content = pstrip "질문이 있어요"
      ∨ ({ role := "user", content := "u2" } : Message).content
          ∈ lastTen ["u0", "a0", "u1", "a1", "u2", "a2", "u3", "a3", "u4", "a4", "u5", "a5"])
    ∧ (({ role := "system", content := cbt2_system_prompt } : Message).content
          = cbt2_system_prompt
      ∨ ({ role := "system", content := cbt2_system_prompt } : Message).content = pstrip "질문"
      ∨ ({ role := "system", content := cbt2_system_prompt } : Message).content
          ∈ lastTen ([] : List String))
    ∧ (∃ m, m ∈ (stream_cbt1_reply
        { stage := "cbt1", question := "또 생각이 나요", response := "",
          history := ["u0", "a0", "u1", "a1", "u2", "a2", "u3", "a3", "u4", "a4", "u5", "a5"],
          turn := 1, intro_shown := true, pending_response := none }
        (Gen.ok "네")).messages ∧ m.content = "u0")
    ∧ (∃ m, m ∈ (stream_cbt3_reply
        { stage := "cbt3", question := "또 계획이 있어요", response := "",
          history := ["u0", "a0", "u1", "a1", "u2", "a2", "u3", "a3", "u4", "a4", "u5", "a5"],
          turn := 1, intro_shown := true, awaiting_preparation_decision := false,
          pending_response := none }
        (Gen.ok "네") simNever).messages ∧ m.content = "u0") := by
  refine ⟨?_, ?_, ?_, ?_⟩
  · exact history_window_amended.1
      { question := "질문이 있어요", response := "",
        history := ["u0", "a0", "u1", "a1", "u2", "a2", "u3", "a3", "u4", "a4", "u5", "a5"],
        intro_shown := true }
      (Gen.ok "네") { role := "user", content := "u2" } (by decide)
  · exact history_window_amended.2.1
      { question := "질문", response := "", history := [], turn := 1, intro_shown := true }
      (Gen.ok "네") simNever { role := "system", content := cbt2_system_prompt } (by decide)
  · exact history_window_amended.2.2.1 _ "네" "u0" (by decide) (by decide) (by decide) (by decide)
  · exact history_window_amended.2.2.2 _ "네" simNever "u0" (by decide) (by decide) (by decide)

/-! ### Wire-codec lemmas -/

theorem digitChar_ne_nl (k : Nat) (hk : k < 10) : Char.ofNat (48 + k) ≠ '\n' := by
  interval_cases k <;> decide

theorem nl_notin_natDigitsAux : ∀ (fuel n : Nat), '\n' ∉ natDigitsAux fuel n
  | 0, n => by simp [natDigitsAux]
  | fuel + 1, n => by
      rw [natDigitsAux]
      split_ifs with h
      · simp only [List.mem_singleton]
        exact fun he => digitChar_ne_nl n h he.symm
      · intro hm
        rcases List.mem_append.mp hm with hm | hm
        · exact nl_notin_natDigitsAux fuel (n / 10) hm
        · rw [List.mem_singleton] at hm
          exact digitChar_ne_nl (n % 10) (Nat.mod_lt _ (by omega)) hm.symm

theorem nl_notin_intDigits (n : Int) : '\n' ∉ intDigits n := by
  rw [intDigits]
  split_ifs with h
  · intro hm
    rcases List.mem_cons.mp hm with hm | hm
    · exact absurd hm (by decide)
    · exact nl_notin_natDigitsAux _ _ hm
  · exact nl_notin_natDigitsAux _ _

theorem hexDigitChar_ne_nl (k : Nat) (hk : k ≤ 15) : hexDigitChar k ≠ '\n' := by
  interval_cases k <;> decide

theorem nl_notin_escapeChar (c : Char) : '\n' ∉ escapeChar c := by
  rw [escapeChar]
  split_ifs with h1 h2 h3 h4 h5 h6 h7 h8
  · decide
  · decide
  · decide
  · decide
  · decide
  · decide
  · decide
  · intro hm
    simp only [List.mem_cons] at hm
    rcases hm with hm | hm | hm | hm | hm | hm | hm
    · exact absurd hm (by decide)
    · exact absurd hm (by decide)
    · exact absurd hm (by decide)
    · exact absurd hm (by decide)
    · exact hexDigitChar_ne_nl (c.toNat / 16) (by omega) hm.symm
    · exact hexDigitChar_ne_nl (c.toNat % 16) (by omega) hm.symm
    · simp at hm
  · simp only [List.mem_singleton]
    exact fun he => h3 he.symm

theorem nl_notin_quoteStr (s : String) : '\n' ∉ quoteStr s := by
  intro hm
  rw [quoteStr] at hm
  rcases List.mem_cons.mp hm with hm | hm
  · exact absurd hm (by decide)
  rcases List.mem_append.mp hm with hm | hm
  · obtain ⟨l, hl, hml⟩ := List.mem_flatten.mp hm
    obtain ⟨c, _, rfl⟩ := List.mem_map.mp hl
    exact nl_notin_escapeChar c hml
  · exact absurd hm (by decide)

mutual

theorem nl_notin_dumpsJ : ∀ (j : Jv), '\n' ∉ dumpsJ j
  | .null => by rw [dumpsJ]; decide
  | .bool true => by rw [dumpsJ]; decide
  | .bool false => by rw [dumpsJ]; decide
  | .num n => by rw [dumpsJ]; exact nl_notin_intDigits n
  | .str s => by rw [dumpsJ]; exact nl_notin_quoteStr s
  | .arr xs => by
      rw [dumpsJ]
      intro hm
      rcases List.mem_cons.mp hm with hm | hm
      · exact absurd hm (by decide)
      rcases List.mem_append.mp hm with hm | hm
      · exact nl_notin_dumpsArr xs hm
      · exact absurd hm (by decide)
  | .obj ms => by
      rw [dumpsJ]
      intro hm
      rcases List.mem_cons.mp hm with hm | hm
      · exact absurd hm (by decide)
      rcases List.mem_append.mp hm with hm | hm
      · exact nl_notin_dumpsObj ms hm
      · exact absurd hm (by decide)

theorem nl_notin_dumpsArr : ∀ (xs : List Jv), '\n' ∉ dumpsArr xs
  | [] => by rw [dumpsArr]; simp
  | [x] => by rw [dumpsArr]; exact nl_notin_dumpsJ x
  | x :: y :: rest => by
      rw [dumpsArr]
      intro hm
      rcases List.mem_append.mp hm with hm | hm
      · rcases List.mem_append.mp hm with hm | hm
        · exact nl_notin_dumpsJ x hm
        · exact absurd hm (by decide)
      · exact nl_notin_dumpsArr (y :: rest) hm

theorem nl_notin_dumpsObj : ∀ (ms : List (String × Jv)), '\n' ∉ dumpsObj ms
  | [] => by rw [dumpsObj]; simp
  | [(k, v)] => by
      rw [dumpsObj]
      intro hm
      rcases List.mem_append.mp hm with hm | hm
      · rcases List.mem_append.mp hm with hm | hm
        · exact nl_notin_quoteStr k hm
        · exact absurd hm (by decide)
      · exact nl_notin_dumpsJ v hm
  | (k, v) :: m :: rest => by
      rw [dumpsObj]
      intro hm
      rcases List.mem_append.mp hm with hm | hm
      · rcases List.mem_append.mp hm with hm | hm
        · rcases List.mem_append.mp hm with hm | hm
          · rcases List.mem_append.mp hm with hm | hm
            · exact nl_notin_quoteStr k hm
            · exact absurd hm (by decide)
          · exact nl_notin_dumpsJ v hm
        · exact absurd hm (by decide)
      · exact nl_notin_dumpsObj (m :: rest) hm

end

theorem afterLastSent_of_not_infix : ∀ (l : List Char),
    ¬ sentinelYield <:+: l → afterLastSent l = none
  | [], _ => rfl
  | c :: rest, h => by
      rw [afterLastSent, afterLastSent_of_not_infix rest (fun hin => h (List.infix_cons hin))]
      have hp : sentinelYield.isPrefixOf (c :: rest) ≠ true := by
        intro hp
        exact h (List.isPrefixOf_iff_prefix.mp hp).isInfix
      simp [hp]

theorem afterLastSent_append (x J : List Char) (hJ : '\n' ∉ J) :
    afterLastSent (x ++ sentinelYield ++ J) = some J := by
  have hnotin : ¬ sentinelYield <:+: (sentCore ++ J) := by
    intro hin
    have hc := hin.sublist.count_le '\n'
    rw [List.count_append] at hc
    have h1 : sentinelYield.count '\n' = 2 := by decide
    have h2 : sentCore.count '\n' = 1 := by decide
    have h3 : J.count '\n' = 0 := List.count_eq_zero.mpr hJ
    omega
  induction x with
  | nil =>
    have he : ([] : List Char) ++ sentinelYield ++ J = '\n' :: (sentCore ++ J) := by
      rw [show sentinelYield = '\n' :: sentCore from by decide]
      simp
    rw [he, afterLastSent, afterLastSent_of_not_infix _ hnotin]
    have hp : sentinelYield.isPrefixOf ('\n' :: (sentCore ++ J)) = true := by
      rw [List.isPrefixOf_iff_prefix, show sentinelYield = '\n' :: sentCore from by decide]
      exact List.cons_prefix_cons.mpr ⟨rfl, List.prefix_append _ _⟩
    simp only [hp, if_true]
    rw [← he]
    simp only [List.nil_append]
    rw [show (17 : Nat) = sentinelYield.length from by decide, List.drop_left]
  | cons c x' ih =>
    have he : (c :: x') ++ sentinelYield ++ J = c :: (x' ++ sentinelYield ++ J) := by simp
    rw [he, afterLastSent, ih]

theorem lastSplitBrace_self (l : List Char) (h : l.getLast? = some '}') :
    lastSplitBrace l = some l := by
  have h2 : l.reverse.head? = some '}' := by rw [List.head?_reverse]; exact h
  obtain ⟨t, ht⟩ : ∃ t, l.reverse = '}' :: t := by
    cases hr : l.reverse with
    | nil => rw [hr] at h2; simp at h2
    | cons a t =>
      rw [hr] at h2
      simp only [List.head?_cons, Option.some.injEq] at h2
      exact ⟨t, by rw [h2]⟩
  rw [lastSplitBrace, ht, List.dropWhile_cons]
  simp only [show (('}' : Char) != '}') = false from by decide, if_false]
  show some ('}' :: t).reverse = some l
  rw [← ht, List.reverse_reverse]

theorem prefix_of_append_of_le {α : Type} (l₁ l₂ l₃ : List α) (h : l₁ <+: l₂ ++ l₃)
    (hl : l₁.length ≤ l₂.length) : l₁ <+: l₂ := by
  have h1 : l₁ = (l₂ ++ l₃).take l₁.length := by
    obtain ⟨t, ht⟩ := h
    rw [← ht]
    exact (List.take_left _ _).symm
  rw [List.take_append_eq_append_take] at h1
  rw [show l₁.length - l₂.length = 0 from by omega] at h1
  simp only [List.take_zero, List.append_nil] at h1
  rw [h1]
  exact List.take_prefix _ _

theorem reTrailer_pos (l cap : List Char) (hp : sentinelBrace.isPrefixOf l = true)
    (hcap : lastSplitBrace (l.drop 16) = some cap) : reTrailer l = some cap := by
  cases l with
  | nil => exact absurd hp (by decide)
  | cons c rest =>
    rw [reTrailer, if_pos hp, hcap]

theorem reTrailer_step (c : Char) (l : List Char)
    (hp : sentinelBrace.isPrefixOf (c :: l) ≠ true) :
    reTrailer (c :: l) = reTrailer l := by
  rw [reTrailer, if_neg hp]

theorem reTrailer_frame : ∀ (reply s : List Char),
    ¬ sentinelBrace <:+: (reply ++ sentinelYield) →
    (∃ t, s = '{' :: t) → s.getLast? = some '}' →
    reTrailer (frameStream reply s) = some s
  | [], s, hno, ⟨t, hs1⟩, hs2 => by
    have he : frameStream [] s = '\n' :: (sentCore ++ s) := by
      rw [frameStream, show sentinelYield = '\n' :: sentCore from by decide]
      simp
    have hstep : sentinelBrace.isPrefixOf ('\n' :: (sentCore ++ s)) ≠ true := by
      intro hp
      rw [List.isPrefixOf_iff_prefix] at hp
      obtain ⟨u, hu⟩ : ∃ u, sentinelBrace = '-' :: u := ⟨sentinelBrace.tail, by decide⟩
      rw [hu, List.cons_prefix_cons] at hp
      exact absurd hp.1 (by decide)
    rw [he, reTrailer_step _ _ hstep]
    apply reTrailer_pos
    · rw [List.isPrefixOf_iff_prefix, show sentinelBrace = sentCore ++ ['{'] from by decide,
        hs1]
      exact ⟨t, by simp⟩
    · rw [show (16 : Nat) = sentCore.length from by decide, List.drop_left]
      exact lastSplitBrace_self s hs2
  | c :: reply', s, hno, hs1, hs2 => by
    have he : frameStream (c :: reply') s = c :: frameStream reply' s := by
      rw [frameStream, frameStream]
      simp
    have hstep : sentinelBrace.isPrefixOf (c :: frameStream reply' s) ≠ true := by
      intro hp
      rw [List.isPrefixOf_iff_prefix] at hp
      have hp2 : sentinelBrace <+: ((c :: reply') ++ sentinelYield) ++ s := by
        rw [frameStream] at hp
        have : c :: (reply' ++ sentinelYield ++ s) = ((c :: reply') ++ sentinelYield) ++ s := by
          simp
        rw [← this]
        exact hp
      have hp3 : sentinelBrace <+: (c :: reply') ++ sentinelYield := by
        apply prefix_of_append_of_le _ _ _ hp2
        have h17 : sentinelBrace.length = 17 := by decide
        have h17b : sentinelYield.length = 17 := by decide
        simp [h17, h17b]
      exact hno hp3.isInfix
    have hno' : ¬ sentinelBrace <:+: (reply' ++ sentinelYield) := by
      intro hin
      apply hno
      have : (c :: reply') ++ sentinelYield = c :: (reply' ++ sentinelYield) := by simp
      rw [this]
      exact List.infix_cons hin
    rw [he, reTrailer_step _ _ hstep]
    exact reTrailer_frame reply' s hno' hs1 hs2

/-! ### JSON parser round trip: digits and numbers -/

theorem digitChar_facts (k : Nat) (hk : k < 10) :
    (Char.ofNat (48 + k)).isDigit = true ∧ isWsChar (Char.ofNat (48 + k)) = false
    ∧ (Char.ofNat (48 + k)).toNat = 48 + k
    ∧ Char.ofNat (48 + k) ≠ '\x7b' ∧ Char.ofNat (48 + k) ≠ '['
    ∧ Char.ofNat (48 + k) ≠ '"' ∧ Char.ofNat (48 + k) ≠ 't'
    ∧ Char.ofNat (48 + k) ≠ 'f' ∧ Char.ofNat (48 + k) ≠ 'n'
    ∧ Char.ofNat (48 + k) ≠ '-' ∧ Char.ofNat (48 + k) ≠ '\x7d'
    ∧ Char.ofNat (48 + k) ≠ ']' := by
  interval_cases k <;> decide

theorem mem_natDigitsAux_shape : ∀ (fuel n : Nat) (c : Char), c ∈ natDigitsAux fuel n →
    ∃ k, k < 10 ∧ c = Char.ofNat (48 + k)
  | 0, n, c, h => absurd h (by simp [natDigitsAux])
  | fuel + 1, n, c, h => by
      rw [natDigitsAux] at h
      split_ifs at h with h10
      · rw [List.mem_singleton] at h
        exact ⟨n, h10, h⟩
      · rcases List.mem_append.mp h with h | h
        · exact mem_natDigitsAux_shape fuel (n / 10) c h
        · rw [List.mem_singleton] at h
          exact ⟨n % 10, Nat.mod_lt _ (by omega), h⟩

theorem natDigitsAux_ne_nil (fuel n : Nat) (h : 0 < fuel) : natDigitsAux fuel n ≠ [] := by
  cases fuel with
  | zero => omega
  | succ fuel =>
    rw [natDigitsAux]
    split_ifs
    · simp
    · simp

theorem digitsToNat_append_one (a : List Char) (c : Char) :
    digitsToNat (a ++ [c]) = digitsToNat a * 10 + (c.toNat - 48) := by
  rw [digitsToNat, digitsToNat, List.foldl_append]
  rfl

theorem digitsToNat_natDigitsAux : ∀ (fuel n : Nat), n < fuel →
    digitsToNat (natDigitsAux fuel n) = n
  | 0, n, h => by omega
  | fuel + 1, n, h => by
      rw [natDigitsAux]
      split_ifs with h10
      · have := (digitChar_facts n h10).2.2.1
        simp [digitsToNat, this]
      · rw [digitsToNat_append_one,
          digitsToNat_natDigitsAux fuel (n / 10) (by omega),
          (digitChar_facts (n % 10) (Nat.mod_lt _ (by omega))).2.2.1]
        omega

theorem natDigitsAux_head_nonzero : ∀ (fuel m : Nat) (d : Char) (ds : List Char),
    m < fuel → 1 ≤ m → natDigitsAux fuel m = d :: ds → d ≠ '0'
  | 0, m, _, _, h, _, _ => by omega
  | fuel + 1, m, d, ds, h, hm, he => by
      rw [natDigitsAux] at he
      split_ifs at he with h10
      · rw [List.cons.injEq] at he
        rw [← he.1]
        interval_cases m <;> decide
      · cases hrec : natDigitsAux fuel (m / 10) with
        | nil => exact absurd hrec (natDigitsAux_ne_nil fuel (m / 10) (by omega))
        | cons d0 ds0 =>
          rw [hrec] at he
          simp only [List.cons_append, List.cons.injEq] at he
          rw [← he.1]
          exact natDigitsAux_head_nonzero fuel (m / 10) d0 ds0 (by omega) (by omega) hrec

theorem natDigitsAux_no_lead_zero : ∀ (fuel n : Nat) (d : Char) (ds : List Char),
    n < fuel → natDigitsAux fuel n = d :: ds → d = '0' → ds = []
  | 0, n, _, _, h, _, _ => by omega
  | fuel + 1, n, d, ds, h, he, hz => by
      rw [natDigitsAux] at he
      split_ifs at he with h10
      · rw [List.cons.injEq] at he
        exact he.2.symm
      · cases hrec : natDigitsAux fuel (n / 10) with
        | nil => exact absurd hrec (natDigitsAux_ne_nil fuel (n / 10) (by omega))
        | cons d0 ds0 =>
          rw [hrec] at he
          simp only [List.cons_append, List.cons.injEq] at he
          have : d0 ≠ '0' :=
            natDigitsAux_head_nonzero fuel (n / 10) d0 ds0 (by omega) (by omega) hrec
          exact absurd (he.1 ▸ hz) this

theorem takeWhile_digits_append (a b : List Char)
    (ha : ∀ c ∈ a, Char.isDigit c = true)
    (hb : ∀ c, b.head? = some c → Char.isDigit c = false) :
    (a ++ b).takeWhile Char.isDigit = a := by
  induction a with
  | nil =>
    cases b with
    | nil => rfl
    | cons c b' =>
      simp only [List.nil_append, List.takeWhile_cons, hb c rfl]
      simp
  | cons x a' ih =>
    simp only [List.cons_append, List.takeWhile_cons, ha x (by simp)]
    simp only [if_true]
    rw [ih (fun c hc => ha c (by simp [hc]))]

theorem dropWhile_digits_append (a b : List Char)
    (ha : ∀ c ∈ a, Char.isDigit c = true)
    (hb : ∀ c, b.head? = some c → Char.isDigit c = false) :
    (a ++ b).dropWhile Char.isDigit = b := by
  induction a with
  | nil =>
    cases b with
    | nil => rfl
    | cons c b' =>
      simp only [List.nil_append, List.dropWhile_cons, hb c rfl]
      simp
  | cons x a' ih =>
    simp only [List.cons_append, List.dropWhile_cons, ha x (by simp)]
    simp only [if_true]
    exact ih (fun c hc => ha c (by simp [hc]))

theorem parseUnsigned_natDigits (n : Nat) (rest : List Char) (hg : numGuard rest) :
    parseUnsigned (natDigits n ++ rest) = some (n, rest) := by
  have hdig : ∀ c ∈ natDigits n, Char.isDigit c = true := by
    intro c hc
    obtain ⟨k, hk, rfl⟩ := mem_natDigitsAux_shape _ _ c hc
    exact (digitChar_facts k hk).1
  have hguard : ∀ c, rest.head? = some c → Char.isDigit c = false := by
    intro c hc
    cases rest with
    | nil => simp at hc
    | cons c0 r0 =>
      rw [List.head?_cons, Option.some.injEq] at hc
      subst hc
      exact hg.1
  have hspan : (natDigits n ++ rest).span Char.isDigit = (natDigits n, rest) := by
    rw [List.span_eq_take_drop, takeWhile_digits_append _ _ hdig hguard,
      dropWhile_digits_append _ _ hdig hguard]
  cases hnd : natDigits n with
  | nil => exact absurd hnd (natDigitsAux_ne_nil _ _ (by omega))
  | cons d ds =>
    rw [hnd] at hspan
    rw [parseUnsigned]
    simp only [hspan]
    have hnolead : ¬ (d = '0' ∧ ds ≠ []) := by
      rintro ⟨hz, hne⟩
      exact hne (natDigitsAux_no_lead_zero _ _ d ds (by omega) hnd hz)
    rw [if_neg hnolead]
    have hval : digitsToNat (d :: ds) = n := by
      rw [← hnd]
      exact digitsToNat_natDigitsAux _ _ (by omega)
    cases rest with
    | nil => simp [hval]
    | cons c r0 =>
      have : ¬ (c = '.' ∨ c = 'e' ∨ c = 'E') := by
        rintro (h | h | h)
        · exact hg.2.1 h
        · exact hg.2.2.1 h
        · exact hg.2.2.2 h
      simp only [if_neg this, hval]

/-! ### JSON parser round trip: strings -/

theorem hexVal_hexDigitChar (k : Nat) (hk : k ≤ 15) : hexVal (hexDigitChar k) = some k := by
  interval_cases k <;> decide

theorem parseStrBody_escaped : ∀ (cs acc rest : List Char) (fuel : Nat),
    ((cs.map escapeChar).flatten).length + 1 ≤ fuel →
    parseStrBody fuel ((cs.map escapeChar).flatten ++ '"' :: rest) acc
      = some (String.mk (acc.reverse ++ cs), rest)
  | [], acc, rest, fuel, hf => by
      obtain ⟨f, rfl⟩ : ∃ f, fuel = f + 1 := ⟨fuel - 1, by omega⟩
      simp [parseStrBody]
  | c :: cs', acc, rest, fuel, hf => by
      have hflat : ((c :: cs').map escapeChar).flatten
          = escapeChar c ++ (cs'.map escapeChar).flatten := by simp
      rw [hflat] at hf ⊢
      rw [escapeChar] at hf ⊢
      split_ifs at hf ⊢ with h1 h2 h3 h4 h5 h6 h7 h8
      · obtain ⟨f, rfl⟩ : ∃ f, fuel = f + 1 := ⟨fuel - 1, by simp at hf; omega⟩
        simp only [List.cons_append, List.nil_append, List.append_assoc, parseStrBody]
        simp only [show ¬ (('\\' : Char) = '"') from by decide, if_false, if_true,
          show (('\\' : Char) = '\\') from rfl, show (('"' : Char) = '"') from rfl]
        rw [parseStrBody_escaped cs' ('"' :: acc) rest f (by simp at hf ⊢; omega)]
        subst h1
        simp
      · obtain ⟨f, rfl⟩ : ∃ f, fuel = f + 1 := ⟨fuel - 1, by simp at hf; omega⟩
        simp only [List.cons_append, List.nil_append, List.append_assoc]
        simp [parseStrBody]
        rw [parseStrBody_escaped cs' ('\\' :: acc) rest f (by simp at hf ⊢; omega)]
        subst h2
        simp
      · obtain ⟨f, rfl⟩ : ∃ f, fuel = f + 1 := ⟨fuel - 1, by simp at hf; omega⟩
        simp only [List.cons_append, List.nil_append, List.append_assoc]
        simp [parseStrBody]
        rw [parseStrBody_escaped cs' ('\n' :: acc) rest f (by simp at hf ⊢; omega)]
        subst h3
        simp
      · obtain ⟨f, rfl⟩ : ∃ f, fuel = f + 1 := ⟨fuel - 1, by simp at hf; omega⟩
        simp only [List.cons_append, List.nil_append, List.append_assoc]
        simp [parseStrBody]
        rw [parseStrBody_escaped cs' ('\r' :: acc) rest f (by simp at hf ⊢; omega)]
        subst h4
        simp
      · obtain ⟨f, rfl⟩ : ∃ f, fuel = f + 1 := ⟨fuel - 1, by simp at hf; omega⟩
        simp only [List.cons_append, List.nil_append, List.append_assoc]
        simp [parseStrBody]
        rw [parseStrBody_escaped cs' ('\t' :: acc) rest f (by simp at hf ⊢; omega)]
        subst h5
        simp
      · obtain ⟨f, rfl⟩ : ∃ f, fuel = f + 1 := ⟨fuel - 1, by simp at hf; omega⟩
        simp only [List.cons_append, List.nil_append, List.append_assoc]
        simp [parseStrBody]
        rw [parseStrBody_escaped cs' (Char.ofNat 8 :: acc) rest f (by simp at hf ⊢; omega)]
        have hc : Char.ofNat 8 = c := by rw [← h6, Char.ofNat_toNat]
        rw [hc]
        simp
      · obtain ⟨f, rfl⟩ : ∃ f, fuel = f + 1 := ⟨fuel - 1, by simp at hf; omega⟩
        simp only [List.cons_append, List.nil_append, List.append_assoc]
        simp [parseStrBody]
        rw [parseStrBody_escaped cs' (Char.ofNat 12 :: acc) rest f (by simp at hf ⊢; omega)]
        have hc : Char.ofNat 12 = c := by rw [← h7, Char.ofNat_toNat]
        rw [hc]
        simp
      · obtain ⟨f, rfl⟩ : ∃ f, fuel = f + 1 := ⟨fuel - 1, by simp at hf; omega⟩
        simp only [List.cons_append, List.nil_append, List.append_assoc]
        simp only [parseStrBody]
        simp only [show ¬ (('\\' : Char) = '"') from by decide, if_false, if_true,
          show (('\\' : Char) = '\\') from rfl,
          show ¬ (('u' : Char) = '"') from by decide, show ¬ (('u' : Char) = '\\') from by decide,
          show ¬ (('u' : Char) = '/') from by decide, show ¬ (('u' : Char) = 'n') from by decide,
          show ¬ (('u' : Char) = 't') from by decide, show ¬ (('u' : Char) = 'r') from by decide,
          show ¬ (('u' : Char) = 'b') from by decide, show ¬ (('u' : Char) = 'f') from by decide,
          show (('u' : Char) = 'u') from rfl]
        rw [show hexVal '0' = some 0 from rfl,
          hexVal_hexDigitChar (c.toNat / 16) (by omega),
          hexVal_hexDigitChar (c.toNat % 16) (by omega)]
        dsimp only
        rw [parseStrBody_escaped cs'
          (Char.ofNat (((0 * 16 + 0) * 16 + c.toNat / 16) * 16 + c.toNat % 16) :: acc)
          rest f (by simp at hf ⊢; omega)]
        have harith : ((0 * 16 + 0) * 16 + c.toNat / 16) * 16 + c.toNat % 16 = c.toNat := by
          omega
        rw [harith, Char.ofNat_toNat]
        simp
      · obtain ⟨f, rfl⟩ : ∃ f, fuel = f + 1 := ⟨fuel - 1, by simp at hf; omega⟩
        simp only [List.cons_append, List.nil_append, List.append_assoc, parseStrBody]
        rw [if_neg h1, if_neg h2, if_neg h8]
        rw [parseStrBody_escaped cs' (c :: acc) rest f (by simp at hf ⊢; omega)]
        simp

/-! ### JSON parser round trip: whitespace and head shapes -/

theorem skipWs_cons_of_ws (c : Char) (l : List Char) (h : isWsChar c = true) :
    skipWs (c :: l) = skipWs l := by
  rw [skipWs, skipWs, List.dropWhile_cons, if_pos h]

theorem skipWs_cons_not (c : Char) (l : List Char) (h : isWsChar c = false) :
    skipWs (c :: l) = c :: l := by
  rw [skipWs, List.dropWhile_cons, h]
  simp

theorem parseJ_cons_ws (fuel : Nat) (c : Char) (l : List Char) (h : isWsChar c = true) :
    parseJ fuel (c :: l) = parseJ fuel l := by
  cases fuel with
  | zero => rfl
  | succ f => simp only [parseJ, skipWs_cons_of_ws c l h]

theorem parseElems_cons_ws (fuel : Nat) (c : Char) (l : List Char) (acc : List Jv)
    (h : isWsChar c = true) :
    parseElems fuel (c :: l) acc = parseElems fuel l acc := by
  cases fuel with
  | zero => rfl
  | succ f => simp only [parseElems, parseJ_cons_ws f c l h]

theorem parseMembers_cons_ws (fuel : Nat) (c : Char) (l : List Char)
    (acc : List (String × Jv)) (h : isWsChar c = true) :
    parseMembers fuel (c :: l) acc = parseMembers fuel l acc := by
  cases fuel with
  | zero => rfl
  | succ f => simp only [parseMembers, skipWs_cons_of_ws c l h]

theorem dumpsArr_cons_decomp (x : Jv) (xs : List Jv) :
    ∃ t, dumpsArr (x :: xs) = dumpsJ x ++ t := by
  cases xs with
  | nil => exact ⟨[], by rw [dumpsArr]; simp⟩
  | cons y ys =>
      exact ⟨", ".data ++ dumpsArr (y :: ys), by rw [dumpsArr, List.append_assoc]⟩

theorem dumpsObj_cons_decomp (k : String) (v : Jv) (ms : List (String × Jv)) :
    ∃ t, dumpsObj ((k, v) :: ms) = quoteStr k ++ t := by
  cases ms with
  | nil => exact ⟨": ".data ++ dumpsJ v, by rw [dumpsObj]; simp⟩
  | cons m2 ms2 =>
      exact ⟨": ".data ++ dumpsJ v ++ ", ".data ++ dumpsObj (m2 :: ms2),
        by rw [dumpsObj]; simp⟩

theorem dumpsJ_head_facts (j : Jv) :
    ∃ c cs, dumpsJ j = c :: cs ∧ isWsChar c = false ∧ c ≠ '\x7d' ∧ c ≠ ']' := by
  cases j with
  | null => exact ⟨'n', "ull".data, by rw [dumpsJ], by decide, by decide, by decide⟩
  | bool b =>
    cases b with
    | true => exact ⟨'t', "rue".data, by rw [dumpsJ], by decide, by decide, by decide⟩
    | false => exact ⟨'f', "alse".data, by rw [dumpsJ], by decide, by decide, by decide⟩
  | num n =>
    rw [dumpsJ, intDigits]
    split_ifs with hn
    · exact ⟨'-', natDigits (-n).toNat, rfl, by decide, by decide, by decide⟩
    · cases hnd : natDigits n.toNat with
      | nil => exact absurd hnd (natDigitsAux_ne_nil _ _ (by omega))
      | cons d ds =>
        rw [natDigits] at hnd
        obtain ⟨k, hk, rfl⟩ :=
          mem_natDigitsAux_shape (n.toNat + 1) n.toNat d (by rw [hnd]; simp)
        exact ⟨_, ds, rfl, (digitChar_facts k hk).2.1,
          (digitChar_facts k hk).2.2.2.2.2.2.2.2.2.2.1,
          (digitChar_facts k hk).2.2.2.2.2.2.2.2.2.2.2⟩
  | str s =>
    exact ⟨'"', (s.data.map escapeChar).flatten ++ ['"'],
      by rw [dumpsJ, quoteStr]; simp, by decide, by decide, by decide⟩
  | arr xs =>
    exact ⟨'[', dumpsArr xs ++ [']'], by rw [dumpsJ]; simp, by decide, by decide, by decide⟩
  | obj ms =>
    exact ⟨'\x7b', dumpsObj ms ++ ['\x7d'],
      by rw [dumpsJ]; simp, by decide, by decide, by decide⟩

theorem numGuard_close (c : Char) (l : List Char) (h1 : c.isDigit = false)
    (h2 : c ≠ '.') (h3 : c ≠ 'e') (h4 : c ≠ 'E') : numGuard (c :: l) :=
  ⟨h1, h2, h3, h4⟩

mutual

theorem parseJ_dumpsJ : ∀ (j : Jv) (rest : List Char) (fuel : Nat),
    (dumpsJ j).length + 1 ≤ fuel → numGuard rest →
    parseJ fuel (dumpsJ j ++ rest) = some (j, rest)
  | .null, rest, fuel, hf, _ => by
      obtain ⟨f, rfl⟩ : ∃ f, fuel = f + 1 := ⟨fuel - 1, by omega⟩
      rw [dumpsJ]
      simp only [parseJ]
      rw [show skipWs ("null".data ++ rest) = 'n' :: ("ull".data ++ rest) from
        skipWs_cons_not _ _ (by decide)]
      dsimp only
      rw [if_neg (by decide), if_neg (by decide), if_neg (by decide), if_neg (by decide),
        if_neg (by decide), if_pos rfl]
      simp only [List.cons_append, List.nil_append]
  | .bool true, rest, fuel, hf, _ => by
      obtain ⟨f, rfl⟩ : ∃ f, fuel = f + 1 := ⟨fuel - 1, by omega⟩
      rw [dumpsJ]
      simp only [parseJ]
      rw [show skipWs ("true".data ++ rest) = 't' :: ("rue".data ++ rest) from
        skipWs_cons_not _ _ (by decide)]
      dsimp only
      rw [if_neg (by decide), if_neg (by decide), if_neg (by decide), if_pos rfl]
      simp only [List.cons_append, List.nil_append]
  | .bool false, rest, fuel, hf, _ => by
      obtain ⟨f, rfl⟩ : ∃ f, fuel = f + 1 := ⟨fuel - 1, by omega⟩
      rw [dumpsJ]
      simp only [parseJ]
      rw [show skipWs ("false".data ++ rest) = 'f' :: ("alse".data ++ rest) from
        skipWs_cons_not _ _ (by decide)]
      dsimp only
      rw [if_neg (by decide), if_neg (by decide), if_neg (by decide), if_neg (by decide),
        if_pos rfl]
      simp only [List.cons_append, List.nil_append]
  | .num n, rest, fuel, hf, hg => by
      obtain ⟨f, rfl⟩ : ∃ f, fuel = f + 1 := ⟨fuel - 1, by omega⟩
      rw [dumpsJ, intDigits]
      by_cases hn : n < 0
      · rw [if_pos hn]
        simp only [parseJ, List.cons_append]
        rw [skipWs_cons_not _ _ (by decide)]
        dsimp only
        rw [if_neg (by decide), if_neg (by decide), if_neg (by decide), if_neg (by decide),
          if_neg (by decide), if_neg (by decide), if_pos rfl]
        rw [parseUnsigned_natDigits _ _ hg]
        dsimp only
        rw [show (((-n).toNat : Int)) = -n from Int.toNat_of_nonneg (by omega), neg_neg]
      · rw [if_neg hn]
        cases hnd : natDigits n.toNat with
        | nil => exact absurd hnd (natDigitsAux_ne_nil _ _ (by omega))
        | cons d ds =>
          have hmem : d ∈ natDigitsAux (n.toNat + 1) n.toNat := by
            rw [show natDigitsAux (n.toNat + 1) n.toNat = natDigits n.toNat from rfl, hnd]
            simp
          obtain ⟨k, hk, rfl⟩ := mem_natDigitsAux_shape (n.toNat + 1) n.toNat d hmem
          simp only [parseJ, List.cons_append]
          rw [skipWs_cons_not _ _ (digitChar_facts k hk).2.1]
          dsimp only
          rw [if_neg (digitChar_facts k hk).2.2.2.1, if_neg (digitChar_facts k hk).2.2.2.2.1,
            if_neg (digitChar_facts k hk).2.2.2.2.2.1,
            if_neg (digitChar_facts k hk).2.2.2.2.2.2.1,
            if_neg (digitChar_facts k hk).2.2.2.2.2.2.2.1,
            if_neg (digitChar_facts k hk).2.2.2.2.2.2.2.2.1,
            if_neg (digitChar_facts k hk).2.2.2.2.2.2.2.2.2.1]
          rw [show Char.ofNat (48 + k) :: (ds ++ rest) = natDigits n.toNat ++ rest from by
            rw [hnd, List.cons_append]]
          rw [parseUnsigned_natDigits _ _ hg]
          dsimp only
          rw [show ((n.toNat : Int)) = n from Int.toNat_of_nonneg (by omega)]
  | .str s, rest, fuel, hf, _ => by
      obtain ⟨f, rfl⟩ : ∃ f, fuel = f + 1 := ⟨fuel - 1, by omega⟩
      rw [dumpsJ, quoteStr]
      simp only [parseJ, List.cons_append, List.append_assoc, List.singleton_append,
        List.nil_append]
      rw [skipWs_cons_not _ _ (by decide)]
      dsimp only
      rw [if_neg (by decide), if_neg (by decide), if_pos rfl]
      rw [parseStrBody_escaped s.data [] rest _ (by simp)]
      dsimp only
      rfl
  | .arr [], rest, fuel, hf, _ => by
      obtain ⟨f, rfl⟩ : ∃ f, fuel = f + 1 := ⟨fuel - 1, by omega⟩
      rw [dumpsJ, dumpsArr]
      simp only [parseJ, List.cons_append, List.nil_append, List.singleton_append]
      rw [skipWs_cons_not _ _ (by decide)]
      dsimp only
      rw [if_neg (by decide), if_pos rfl]
      rw [skipWs_cons_not _ _ (by decide)]
      simp
  | .arr (x :: xs), rest, fuel, hf, _ => by
      obtain ⟨f, rfl⟩ : ∃ f, fuel = f + 1 := ⟨fuel - 1, by omega⟩
      rw [dumpsJ]
      obtain ⟨c0, cs0, hx, hws0, _hbr0, hbk0⟩ := dumpsJ_head_facts x
      obtain ⟨t, ht⟩ := dumpsArr_cons_decomp x xs
      have hshape : dumpsArr (x :: xs) ++ ']' :: rest = c0 :: (cs0 ++ t ++ ']' :: rest) := by
        rw [ht, hx]
        simp
      simp only [parseJ, List.cons_append, List.append_assoc, List.singleton_append,
        List.nil_append]
      rw [skipWs_cons_not _ _ (by decide)]
      dsimp only
      rw [if_neg (by decide), if_pos rfl]
      rw [show skipWs (dumpsArr (x :: xs) ++ ']' :: rest)
            = dumpsArr (x :: xs) ++ ']' :: rest from by
        rw [hshape]
        exact skipWs_cons_not _ _ hws0]
      rw [if_neg (by rw [hshape]; simp [hbk0])]
      rw [parseElems_dumpsArr x xs [] rest f (by
        rw [dumpsJ] at hf
        simp only [List.length_cons, List.length_append, List.length_singleton] at hf
        omega)]
      simp only [List.nil_append]
  | .obj [], rest, fuel, hf, _ => by
      obtain ⟨f, rfl⟩ : ∃ f, fuel = f + 1 := ⟨fuel - 1, by omega⟩
      rw [dumpsJ, dumpsObj]
      simp only [parseJ, List.cons_append, List.nil_append, List.singleton_append]
      rw [skipWs_cons_not _ _ (by decide)]
      dsimp only
      rw [if_pos rfl]
      rw [skipWs_cons_not _ _ (by decide)]
      simp
  | .obj (⟨k, v⟩ :: ms), rest, fuel, hf, _ => by
      obtain ⟨f, rfl⟩ : ∃ f, fuel = f + 1 := ⟨fuel - 1, by omega⟩
      rw [dumpsJ]
      obtain ⟨t, ht⟩ := dumpsObj_cons_decomp k v ms
      have hshape : dumpsObj ((k, v) :: ms) ++ '}' :: rest
          = '"' :: (((k.data.map escapeChar).flatten ++ ['"']) ++ t ++ '}' :: rest) := by
        rw [ht, quoteStr]
        simp
      simp only [parseJ, List.cons_append, List.append_assoc, List.singleton_append,
        List.nil_append]
      rw [skipWs_cons_not _ _ (by decide)]
      dsimp only
      rw [if_pos rfl]
      rw [show skipWs (dumpsObj ((k, v) :: ms) ++ '}' :: rest)
            = dumpsObj ((k, v) :: ms) ++ '}' :: rest from by
        rw [hshape]
        exact skipWs_cons_not _ _ (by decide)]
      rw [if_neg (by rw [hshape]; simp)]
      rw [parseMembers_dumpsObj k v ms [] rest f (by
        rw [dumpsJ] at hf
        simp only [List.length_cons, List.length_append, List.length_singleton] at hf
        omega)]
      simp only [List.nil_append]
termination_by j _ _ _ _ => sizeOf j

theorem parseElems_dumpsArr : ∀ (x : Jv) (xs : List Jv) (acc : List Jv) (rest : List Char)
      (fuel : Nat), (dumpsArr (x :: xs)).length + 2 ≤ fuel →
    parseElems fuel (dumpsArr (x :: xs) ++ ']' :: rest) acc = some (.arr (acc ++ x :: xs), rest)
  | x, [], acc, rest, fuel, hf => by
      obtain ⟨f, rfl⟩ : ∃ f, fuel = f + 1 := ⟨fuel - 1, by omega⟩
      rw [dumpsArr] at hf ⊢
      simp only [parseElems]
      rw [parseJ_dumpsJ x (']' :: rest) f (by omega)
        (numGuard_close _ _ (by decide) (by decide) (by decide) (by decide))]
      dsimp only
      rw [skipWs_cons_not _ _ (by decide)]
      dsimp only
      rw [if_neg (by decide), if_pos rfl]
  | x, y :: ys, acc, rest, fuel, hf => by
      obtain ⟨f, rfl⟩ : ∃ f, fuel = f + 1 := ⟨fuel - 1, by omega⟩
      rw [dumpsArr, show (", ".data : List Char) = ',' :: [' '] from rfl] at hf ⊢
      simp only [List.length_append, List.length_cons, List.length_singleton] at hf
      simp only [parseElems, List.append_assoc, List.cons_append, List.singleton_append,
        List.nil_append]
      rw [parseJ_dumpsJ x (',' :: ' ' :: (dumpsArr (y :: ys) ++ ']' :: rest)) f (by omega)
        (numGuard_close _ _ (by decide) (by decide) (by decide) (by decide))]
      dsimp only
      rw [skipWs_cons_not _ _ (by decide)]
      dsimp only
      rw [if_pos rfl]
      rw [parseElems_cons_ws f ' ' _ _ (by decide)]
      rw [parseElems_dumpsArr y ys (acc ++ [x]) rest f (by omega)]
      simp only [List.append_assoc, List.singleton_append]
termination_by x xs _ _ _ _ => 1 + sizeOf x + sizeOf xs

theorem parseMembers_dumpsObj : ∀ (k : String) (v : Jv) (ms : List (String × Jv))
      (acc : List (String × Jv)) (rest : List Char) (fuel : Nat),
    (dumpsObj ((k, v) :: ms)).length + 2 ≤ fuel →
    parseMembers fuel (dumpsObj ((k, v) :: ms) ++ '}' :: rest) acc
      = some (.obj (acc ++ (k, v) :: ms), rest)
  | k, v, [], acc, rest, fuel, hf => by
      obtain ⟨f, rfl⟩ : ∃ f, fuel = f + 1 := ⟨fuel - 1, by omega⟩
      rw [dumpsObj, quoteStr, show (": ".data : List Char) = ':' :: [' '] from rfl] at hf ⊢
      simp only [List.length_append, List.length_cons, List.length_singleton] at hf
      simp only [parseMembers, List.append_assoc, List.cons_append, List.singleton_append,
        List.nil_append]
      rw [skipWs_cons_not _ _ (by decide)]
      dsimp only
      rw [if_pos rfl]
      rw [parseStrBody_escaped k.data [] (':' :: ' ' :: (dumpsJ v ++ '}' :: rest)) _
        (by simp)]
      dsimp only
      rw [skipWs_cons_not _ _ (by decide)]
      dsimp only
      rw [if_pos rfl]
      rw [parseJ_cons_ws f ' ' _ (by decide)]
      rw [parseJ_dumpsJ v ('}' :: rest) f (by omega)
        (numGuard_close _ _ (by decide) (by decide) (by decide) (by decide))]
      dsimp only
      rw [skipWs_cons_not _ _ (by decide)]
      dsimp only
      rw [if_neg (by decide), if_pos rfl]
      rfl
  | k, v, ⟨k2, v2⟩ :: ms2, acc, rest, fuel, hf => by
      obtain ⟨f, rfl⟩ : ∃ f, fuel = f + 1 := ⟨fuel - 1, by omega⟩
      rw [dumpsObj, quoteStr, show (": ".data : List Char) = ':' :: [' '] from rfl,
        show (", ".data : List Char) = ',' :: [' '] from rfl] at hf ⊢
      simp only [List.length_append, List.length_cons, List.length_singleton] at hf
      simp only [parseMembers, List.append_assoc, List.cons_append, List.singleton_append,
        List.nil_append]
      rw [skipWs_cons_not _ _ (by decide)]
      dsimp only
      rw [if_pos rfl]
      rw [parseStrBody_escaped k.data []
        (':' :: ' ' :: (dumpsJ v ++ ',' :: ' ' :: (dumpsObj ((k2, v2) :: ms2) ++ '}' :: rest)))
        _ (by simp)]
      dsimp only
      rw [skipWs_cons_not _ _ (by decide)]
      dsimp only
      rw [if_pos rfl]
      rw [parseJ_cons_ws f ' ' _ (by decide)]
      rw [parseJ_dumpsJ v
        (',' :: ' ' :: (dumpsObj ((k2, v2) :: ms2) ++ '}' :: rest)) f (by omega)
        (numGuard_close _ _ (by decide) (by decide) (by decide) (by decide))]
      dsimp only
      rw [skipWs_cons_not _ _ (by decide)]
      dsimp only
      rw [if_pos rfl]
      rw [parseMembers_cons_ws f ' ' _ _ (by decide)]
      rw [parseMembers_dumpsObj k2 v2 ms2 _ rest f (by omega)]
      simp only [List.append_assoc, List.singleton_append]
      rfl
termination_by _ v ms _ _ _ _ => 1 + sizeOf v + sizeOf ms

end

theorem loadsJ_dumpsJ (j : Jv) : loadsJ (dumpsJ j) = some j := by
  have h := parseJ_dumpsJ j [] ((dumpsJ j).length + 1) (le_refl _) trivial
  rw [List.append_nil] at h
  rw [loadsJ, h]
  rfl

/-! ### C4 (corrected): wire codec round trip -/

/-- C4 counterexample: with a reply text containing the literal sentinel
line followed by a brace, the orchestrator's extraction — which takes the
FIRST such occurrence, not the last, and captures greedily to the final
closing brace — grabs a garbage candidate that fails to parse, so no object
(let alone one equal to the original trailer) is recovered, even though the
framed trailer itself is valid JSON that parses back to the original. -/
theorem wire_roundtrip_counterexample :
    (reTrailer (frameStream evilReply (dumpsJ exTrailerJv))).bind loadsJ = none
    ∧ loadsJ (dumpsJ exTrailerJv) = some exTrailerJv := by
  constructor <;> rfl

/-- C4 amended: the code searches for the FIRST occurrence of
`---END_STAGE---\n` followed by a brace and captures greedily to the last
closing brace.  Whenever the reply text (with the sentinel frame appended)
contains no sentinel-brace occurrence of its own, the capture is exactly
the serialized trailer object and `json.loads` recovers an object equal to
the original trailer, for EVERY trailer object; a reply containing the
bare sentinel line without a following brace is harmless. -/
theorem wire_roundtrip_amended (reply : List Char) (ms : List (String × Jv))
    (hno : ¬ sentinelBrace <:+: (reply ++ sentinelYield)) :
    (reTrailer (frameStream reply (dumpsJ (Jv.obj ms)))).bind loadsJ = some (Jv.obj ms) := by
  rw [reTrailer_frame reply _ hno ⟨dumpsObj ms ++ ['}'], by rw [dumpsJ]; simp⟩
    (by rw [dumpsJ]; exact List.getLast?_concat _)]
  exact loadsJ_dumpsJ (Jv.obj ms)

/-- C4 amended witness: a clean reply round-trips to the original trailer
object; the reply may even contain the sentinel line as long as no brace
follows it. -/
theorem wire_roundtrip_amended_witness :
    (reTrailer (frameStream "괜찮아요 ---END_STAGE--- 라고 말해요".data
        (dumpsJ (Jv.obj [("next_stage", Jv.str "mi"), ("turn", Jv.num 0)])))).bind loadsJ
      = some (Jv.obj [("next_stage", Jv.str "mi"), ("turn", Jv.num 0)]) :=
  wire_roundtrip_amended _ _ (by decide)

/-! ### C3 (corrected): every accepted request ends with a trailer -/

/-- C3 counterexample: on the model-not-ready path and on the
unrecognized-stage path ("end" is accepted by the request model but has no
handler) the orchestrator returns after a bare notice — the streamed body
contains no sentinel and no trailer at all. -/
theorem stream_trailer_counterexample :
    (¬ ∃ a : AdoptedState,
      afterLastSent (asyncGenBody false
          { stage := "mi", question := "안녕", response := "", history := [], turn := 0 } [] [])
        = some (dumpsJ (canonicalTrailer a)))
    ∧ (¬ ∃ a : AdoptedState,
      afterLastSent (asyncGenBody true
          { stage := "end", question := "안녕", response := "", history := [], turn := 0 } [] [])
        = some (dumpsJ (canonicalTrailer a))) := by
  constructor
  · rintro ⟨a, ha⟩
    rw [show afterLastSent (asyncGenBody false
        { stage := "mi", question := "안녕", response := "", history := [], turn := 0 } [] [])
        = none from rfl] at ha
    exact Option.noConfusion ha
  · rintro ⟨a, ha⟩
    rw [show afterLastSent (asyncGenBody true
        { stage := "end", question := "안녕", response := "", history := [], turn := 0 } [] [])
        = none from rfl] at ha
    exact Option.noConfusion ha

/-- C3 amended: for every request that is dispatched to one of the five
handlers (model ready, stage recognized), whatever prefix of the handler's
stream was collected and whatever error note was interposed, the body ends
with the re-emitted canonical trailer: the text after the LAST sentinel
occurrence is exactly the serialization of the canonical trailer object
built from the adopted state (serialized trailers cannot contain the
sentinel, since every raw newline is escaped).  The well-typedness
hypothesis restricts the statement to collected texts whose parsed trailer
fields carry the types the five handlers actually emit, which is where
`adoptState` is a faithful model of the untyped `result.get` adoption. -/
theorem stream_trailer_amended (st : MainAgentState) (collected errNote : List Char)
    (h1 : handledStages.contains st.stage = true)
    (_h2 : WellTypedFullText collected = true) :
    afterLastSent (asyncGenBody true st collected errNote)
      = some (dumpsJ (canonicalTrailer (adoptState st collected))) := by
  rw [asyncGenBody, if_neg (by simp), if_neg (by rw [h1]; simp)]
  exact afterLastSent_append (collected ++ errNote) _ (nl_notin_dumpsJ _)

/-- C3 amended witness: a dispatched mi-stage request whose handler stream
was fully collected ends with the canonical trailer. -/
theorem stream_trailer_amended_witness :
    afterLastSent (asyncGenBody true
        { stage := "mi", question := "안녕", response := "이전 응답", history := ["u1", "a1"],
          turn := 1 }
        "응답이에요".data [])
      = some (dumpsJ (canonicalTrailer (adoptState
          { stage := "mi", question := "안녕", response := "이전 응답", history := ["u1", "a1"],
            turn := 1 }
          "응답이에요".data))) :=
  stream_trailer_amended _ _ _ (by decide) (by decide)
